import Mathlib

/-!
Verification of the wire-level OpenFlow utility layer (src/lib/ofp-util.c).

The development shallowly embeds the functions of ofp-util.c over plain
natural numbers and lists of bytes.  Multi-byte integer fields are modelled
by their numeric values; the byte-order conversions htons/htonl/ntohs/ntohl
are the identity at this level of abstraction (all reasoning is about the
logical field values, with explicit big-endian reads where the code walks
raw byte runs).  Machine-width overflow is made explicit with masks such as
0xffffffff where the C relies on fixed-width arithmetic.

Protocol constants that live in headers outside src/ (openflow.h,
nicira-ext.h) are the standard OpenFlow 1.0 wire constants and are spelled
out below; functions of this repository that live outside src/
(cls_rule_zero_wildcarded_fields, the error-descriptor encoding) are
modelled from the specification and say so in their doc comments.
-/

/-! ## Bitwise toolkit -/

/-! ## Wire constants (OpenFlow 1.0 openflow.h and nicira-ext.h, outside src/) -/

def OFPFW_IN_PORT : Nat := 0x1

def OFPFW_DL_VLAN : Nat := 0x2

def OFPFW_DL_SRC : Nat := 0x4

def OFPFW_DL_DST : Nat := 0x8

def OFPFW_DL_TYPE : Nat := 0x10

def OFPFW_NW_PROTO : Nat := 0x20

def OFPFW_TP_SRC : Nat := 0x40

def OFPFW_TP_DST : Nat := 0x80

def OFPFW_NW_SRC_SHIFT : Nat := 8

def OFPFW_NW_SRC_MASK : Nat := 0x3f00

def OFPFW_NW_DST_SHIFT : Nat := 14

def OFPFW_NW_DST_MASK : Nat := 0xfc000

def OFPFW_DL_VLAN_PCP : Nat := 0x100000

def OFPFW_NW_TOS : Nat := 0x200000

def OFPFW_ALL : Nat := 0x3fffff

def NXFW_TUN_ID : Nat := 0x2000000

def OVSFW_ALL : Nat := OFPFW_ALL ||| NXFW_TUN_ID

/-- Bit complement at the 32-bit width, the value of the C expression ~x on
a uint32_t operand. -/
def MASK32 : Nat := 0xffffffff

def ETH_TYPE_IP : Nat := 0x800

def ETH_TYPE_ARP : Nat := 0x806

def IPPROTO_ICMP : Nat := 1

def IPPROTO_TCP : Nat := 6

def IPPROTO_UDP : Nat := 17

def IP_DSCP_MASK : Nat := 0xfc

def OFPP_IN_PORT : Nat := 0xfff8

def OFPP_TABLE : Nat := 0xfff9

def OFPP_NORMAL : Nat := 0xfffa

def OFPP_FLOOD : Nat := 0xfffb

def OFPP_ALL : Nat := 0xfffc

def OFPP_CONTROLLER : Nat := 0xfffd

def OFPP_LOCAL : Nat := 0xfffe

def OFPP_NONE : Nat := 0xffff

/-- The datapath's reserved local-port sentinel (datapath protocol header,
outside src/): the internal counterpart of OFPP_LOCAL. -/
def ODPP_LOCAL : Nat := 0

/-! ## Netmask arithmetic (ofputil_wcbits_to_netmask / ofputil_netmask_to_wcbits) -/

/-- C source: `wcbits &= 0x3f; return wcbits < 32 ? htonl(~((1u << wcbits) - 1)) : 0;`
(htonl is the identity in this value-level embedding). -/
def ofputil_wcbits_to_netmask (wcbits : Nat) : Nat :=
  let w := wcbits &&& 0x3f
  if w < 32 then MASK32 ^^^ (2 ^ w - 1) else 0

/-- Count of trailing zero bits, with explicit fuel; 32 rounds suffice for
any 32-bit nonzero operand (mirrors __builtin_ctz on the asserted domain). -/
def ctz32 : Nat → Nat → Nat
  | 0, _ => 0
  | fuel + 1, n => if n % 2 = 1 then 0 else ctz32 fuel (n / 2) + 1

/-- C source: `assert(ip_is_cidr(netmask)); return netmask == htonl(0) ? 32 :
__builtin_ctz(ntohl(netmask));`.  The assertion that the operand is a CIDR
mask is a programming-error check (spec section 4.1); the model is the
function's value on that asserted domain, where ctz is total. -/
def ofputil_netmask_to_wcbits (netmask : Nat) : Nat :=
  if netmask = 0 then 32 else ctz32 32 netmask

/-! ## The wire match structure and normalize_match -/

/-- The on-the-wire struct ofp_match, with multi-byte fields modelled by
their numeric values (byte-order conversion is the identity here) and the
two reserved padding regions kept as explicit fields. -/
structure OfpMatch where
  wildcards : Nat
  in_port : Nat
  dl_src : Nat
  dl_dst : Nat
  dl_vlan : Nat
  dl_vlan_pcp : Nat
  pad1 : Nat
  dl_type : Nat
  nw_tos : Nat
  nw_proto : Nat
  pad2 : Nat
  nw_src : Nat
  nw_dst : Nat
  tp_src : Nat
  tp_dst : Nat
deriving DecidableEq, Repr

/-- Local enum OFPFW_NW of normalize_match. -/
def OFPFW_NW : Nat :=
  OFPFW_NW_SRC_MASK ||| OFPFW_NW_DST_MASK ||| OFPFW_NW_PROTO ||| OFPFW_NW_TOS

/-- Local enum OFPFW_TP of normalize_match. -/
def OFPFW_TP : Nat := OFPFW_TP_SRC ||| OFPFW_TP_DST

/-- Direct transcription of normalize_match from src/lib/ofp-util.c.  The C
mutates the match in place; here each branch builds the updated record, and
the trailing dl_src/dl_dst zeroing reads the branch's final wildcard word
exactly as the C reads the local variable wc. -/
def normalize_match (m : OfpMatch) : OfpMatch :=
  let wc := m.wildcards &&& OVSFW_ALL
  let m1 : OfpMatch :=
    if wc &&& OFPFW_DL_TYPE ≠ 0 then
      { m with dl_type := 0,
               nw_src := 0, nw_dst := 0, nw_proto := 0, nw_tos := 0,
               tp_src := 0, tp_dst := 0,
               wildcards := wc ||| (OFPFW_NW ||| OFPFW_TP) }
    else if m.dl_type = ETH_TYPE_IP then
      let step : OfpMatch :=
        if wc &&& OFPFW_NW_PROTO ≠ 0 then
          { m with nw_proto := 0, tp_src := 0, tp_dst := 0,
                   wildcards := wc ||| OFPFW_TP }
        else if m.nw_proto = IPPROTO_TCP ∨ m.nw_proto = IPPROTO_UDP ∨
                m.nw_proto = IPPROTO_ICMP then
          { m with tp_src := if wc &&& OFPFW_TP_SRC ≠ 0 then 0 else m.tp_src,
                   tp_dst := if wc &&& OFPFW_TP_DST ≠ 0 then 0 else m.tp_dst,
                   wildcards := wc }
        else
          { m with tp_src := 0, tp_dst := 0,
                   wildcards := wc &&& (MASK32 ^^^ OFPFW_TP) }
      { step with
        nw_src := if step.wildcards &&& OFPFW_NW_SRC_MASK ≠ 0 then
            step.nw_src &&&
              ofputil_wcbits_to_netmask (step.wildcards >>> OFPFW_NW_SRC_SHIFT)
          else step.nw_src,
        nw_dst := if step.wildcards &&& OFPFW_NW_DST_MASK ≠ 0 then
            step.nw_dst &&&
              ofputil_wcbits_to_netmask (step.wildcards >>> OFPFW_NW_DST_SHIFT)
          else step.nw_dst,
        nw_tos := if step.wildcards &&& OFPFW_NW_TOS ≠ 0 then 0
          else step.nw_tos &&& IP_DSCP_MASK }
    else if m.dl_type = ETH_TYPE_ARP then
      { m with
        nw_proto := if wc &&& OFPFW_NW_PROTO ≠ 0 then 0 else m.nw_proto,
        nw_src := if wc &&& OFPFW_NW_SRC_MASK ≠ 0 then
            m.nw_src &&& ofputil_wcbits_to_netmask (wc >>> OFPFW_NW_SRC_SHIFT)
          else m.nw_src,
        nw_dst := if wc &&& OFPFW_NW_DST_MASK ≠ 0 then
            m.nw_dst &&& ofputil_wcbits_to_netmask (wc >>> OFPFW_NW_DST_SHIFT)
          else m.nw_dst,
        tp_src := 0, tp_dst := 0, nw_tos := 0,
        wildcards := wc }
    else
      { m with nw_proto := 0, nw_src := 0, nw_dst := 0, nw_tos := 0,
               tp_src := 0, tp_dst := 0,
               wildcards := wc &&& (MASK32 ^^^ (OFPFW_NW ||| OFPFW_TP)) }
  { m1 with
    dl_src := if m1.wildcards &&& OFPFW_DL_SRC ≠ 0 then 0 else m1.dl_src,
    dl_dst := if m1.wildcards &&& OFPFW_DL_DST ≠ 0 then 0 else m1.dl_dst }

/-! ## Match to rule conversion (ofputil_cls_rule_from_match / _to_match) -/

/-- Internal flow-wildcard bits (lib/classifier.h, outside src/).  The
BUILD_ASSERT in src/lib/ofp-util.c pins the eight invariant bits to the
same values as the corresponding OFPFW_ bits; the remaining four bits only
need to be distinct bits outside that low byte, so they are placed at
bits 8..11. -/
def FWW_IN_PORT : Nat := 0x1

def FWW_DL_VLAN : Nat := 0x2

def FWW_DL_SRC : Nat := 0x4

def FWW_DL_DST : Nat := 0x8

def FWW_DL_TYPE : Nat := 0x10

def FWW_NW_PROTO : Nat := 0x20

def FWW_TP_SRC : Nat := 0x40

def FWW_TP_DST : Nat := 0x80

def FWW_DL_VLAN_PCP : Nat := 0x100

def FWW_NW_TOS : Nat := 0x200

def FWW_ETH_MCAST : Nat := 0x400

def FWW_TUN_ID : Nat := 0x800

/-- WC_INVARIANTS: the invariant bits of WC_INVARIANT_LIST all OR'd
together, as in src/lib/ofp-util.c. -/
def WC_INVARIANTS : Nat :=
  FWW_IN_PORT ||| FWW_DL_VLAN ||| FWW_DL_SRC ||| FWW_DL_DST |||
  FWW_DL_TYPE ||| FWW_NW_PROTO ||| FWW_TP_SRC ||| FWW_TP_DST

/-- The two flow formats accepted by the conversion functions. -/
inductive FlowFormat where
  | NXFF_OPENFLOW10
  | NXFF_TUN_ID_FROM_COOKIE
deriving DecidableEq, Repr

/-- The internal flow record (struct flow; named OfpFlow here because Flow
is already taken by the ambient library), with the two 6-byte Ethernet
addresses modelled as 48-bit numbers whose bits 0..7 are the first wire
byte (so the Ethernet multicast flag is bit 0). -/
structure OfpFlow where
  tun_id : Nat
  nw_src : Nat
  nw_dst : Nat
  in_port : Nat
  dl_vlan : Nat
  dl_src : Nat
  dl_dst : Nat
  dl_type : Nat
  tp_src : Nat
  tp_dst : Nat
  dl_vlan_pcp : Nat
  nw_tos : Nat
  nw_proto : Nat
deriving DecidableEq, Repr

/-- struct flow_wildcards: the FWW_ bitmask, the two CIDR netmasks and the
(always zeroed here) register-mask array. -/
structure FlowWildcards where
  wildcards : Nat
  nw_src_mask : Nat
  nw_dst_mask : Nat
  reg_masks : List Nat
deriving DecidableEq, Repr

/-- struct cls_rule restricted to the fields this layer touches. -/
structure ClsRule where
  flow : OfpFlow
  wc : FlowWildcards
  priority : Nat
deriving DecidableEq, Repr

def MASK48 : Nat := 0xffffffffffff

/-- Modelled from the spec: cls_rule_zero_wildcarded_fields lives in the
classifier (lib/classifier.c, outside src/).  Spec sections 4.2 and 6: it
sets to zero every Flow field whose Wildcards bit marks it as ignored; for
the two L3 addresses the ignored bits are the zero bits of the per-address
netmask, so each address is masked with its netmask; FWW_ETH_MCAST governs
only the multicast component (bit 0) of the L2 destination. -/
def cls_rule_zero_wildcarded_fields (r : ClsRule) : ClsRule :=
  let w := r.wc.wildcards
  { r with flow := { r.flow with
      tun_id := if w &&& FWW_TUN_ID ≠ 0 then 0 else r.flow.tun_id,
      nw_src := r.flow.nw_src &&& r.wc.nw_src_mask,
      nw_dst := r.flow.nw_dst &&& r.wc.nw_dst_mask,
      in_port := if w &&& FWW_IN_PORT ≠ 0 then 0 else r.flow.in_port,
      dl_vlan := if w &&& FWW_DL_VLAN ≠ 0 then 0 else r.flow.dl_vlan,
      dl_src := if w &&& FWW_DL_SRC ≠ 0 then 0 else r.flow.dl_src,
      dl_dst := if w &&& FWW_DL_DST ≠ 0 then 0
        else if w &&& FWW_ETH_MCAST ≠ 0 then r.flow.dl_dst &&& (MASK48 ^^^ 1)
        else r.flow.dl_dst,
      dl_type := if w &&& FWW_DL_TYPE ≠ 0 then 0 else r.flow.dl_type,
      tp_src := if w &&& FWW_TP_SRC ≠ 0 then 0 else r.flow.tp_src,
      tp_dst := if w &&& FWW_TP_DST ≠ 0 then 0 else r.flow.tp_dst,
      dl_vlan_pcp := if w &&& FWW_DL_VLAN_PCP ≠ 0 then 0
        else r.flow.dl_vlan_pcp,
      nw_tos := if w &&& FWW_NW_TOS ≠ 0 then 0 else r.flow.nw_tos,
      nw_proto := if w &&& FWW_NW_PROTO ≠ 0 then 0 else r.flow.nw_proto } }

/-- The wc->wildcards initialization sequence of
ofputil_cls_rule_from_match: the C's chain of conditional |= statements on
the masked wire wildcard word, written as an OR of conditional constants in
the same order as the C statements. -/
def fromMatchWCW (ofpfw : Nat) : Nat :=
  (ofpfw &&& WC_INVARIANTS)
  ||| (if ofpfw &&& OFPFW_DL_VLAN_PCP ≠ 0 then FWW_DL_VLAN_PCP else 0)
  ||| (if ofpfw &&& OFPFW_NW_TOS ≠ 0 then FWW_NW_TOS else 0)
  ||| (if ofpfw &&& NXFW_TUN_ID = 0 then 0 else FWW_TUN_ID)
  ||| (if ofpfw &&& OFPFW_DL_DST ≠ 0 then FWW_ETH_MCAST else 0)

/-- Transcription of ofputil_cls_rule_from_match (src/lib/ofp-util.c). -/
def ofputil_cls_rule_from_match (m : OfpMatch) (priority : Nat)
    (flow_format : FlowFormat) (cookie : Nat) : ClsRule :=
  let ofpfw := m.wildcards &&&
    (if flow_format = FlowFormat.NXFF_TUN_ID_FROM_COOKIE then OVSFW_ALL
     else OFPFW_ALL)
  let rulePriority := if ofpfw = 0 then 0xffff else priority
  let wcw := fromMatchWCW ofpfw
  let rule : ClsRule :=
    { flow := { tun_id := if ofpfw &&& NXFW_TUN_ID = 0
                  then (cookie >>> 32) &&& MASK32 else 0,
                nw_src := m.nw_src, nw_dst := m.nw_dst,
                in_port := if m.in_port = OFPP_LOCAL then ODPP_LOCAL
                  else m.in_port,
                dl_vlan := m.dl_vlan, dl_src := m.dl_src, dl_dst := m.dl_dst,
                dl_type := m.dl_type, tp_src := m.tp_src, tp_dst := m.tp_dst,
                dl_vlan_pcp := m.dl_vlan_pcp, nw_tos := m.nw_tos,
                nw_proto := m.nw_proto },
      wc := { wildcards := wcw,
              nw_src_mask :=
                ofputil_wcbits_to_netmask (ofpfw >>> OFPFW_NW_SRC_SHIFT),
              nw_dst_mask :=
                ofputil_wcbits_to_netmask (ofpfw >>> OFPFW_NW_DST_SHIFT),
              reg_masks := List.replicate 4 0 },
      priority := rulePriority }
  cls_rule_zero_wildcarded_fields rule

/-- Transcription of ofputil_cls_rule_to_match (src/lib/ofp-util.c). -/
def ofputil_cls_rule_to_match (rule : ClsRule) (flow_format : FlowFormat) :
    OfpMatch :=
  let w := rule.wc.wildcards
  let ofpfw := (w &&& WC_INVARIANTS)
    ||| (ofputil_netmask_to_wcbits rule.wc.nw_src_mask <<< OFPFW_NW_SRC_SHIFT)
    ||| (ofputil_netmask_to_wcbits rule.wc.nw_dst_mask <<< OFPFW_NW_DST_SHIFT)
    ||| (if w &&& FWW_DL_VLAN_PCP ≠ 0 then OFPFW_DL_VLAN_PCP else 0)
    ||| (if w &&& FWW_NW_TOS ≠ 0 then OFPFW_NW_TOS else 0)
    ||| (if flow_format = FlowFormat.NXFF_TUN_ID_FROM_COOKIE ∧
           w &&& FWW_TUN_ID ≠ 0 then NXFW_TUN_ID else 0)
  { wildcards := ofpfw,
    in_port := if rule.flow.in_port = ODPP_LOCAL then OFPP_LOCAL
      else rule.flow.in_port,
    dl_src := rule.flow.dl_src, dl_dst := rule.flow.dl_dst,
    dl_vlan := rule.flow.dl_vlan, dl_vlan_pcp := rule.flow.dl_vlan_pcp,
    pad1 := 0,
    dl_type := rule.flow.dl_type, nw_tos := rule.flow.nw_tos,
    nw_proto := rule.flow.nw_proto, pad2 := 0,
    nw_src := rule.flow.nw_src, nw_dst := rule.flow.nw_dst,
    tp_src := rule.flow.tp_src, tp_dst := rule.flow.tp_dst }

/-! ## Action validation (validate_actions and helpers) -/

/-- Big-endian 16-bit read at a byte offset; positions past the end of the
run read as zero. -/
def be16 (bytes : List Nat) (off : Nat) : Nat :=
  bytes.getD off 0 * 256 + bytes.getD (off + 1) 0

/-- Big-endian 32-bit read at a byte offset. -/
def be32 (bytes : List Nat) (off : Nat) : Nat :=
  be16 bytes off * 65536 + be16 bytes (off + 2)

def OFP_ACTION_ALIGN : Nat := 8

def OFPAT_OUTPUT : Nat := 0

def OFPAT_SET_VLAN_VID : Nat := 1

def OFPAT_SET_VLAN_PCP : Nat := 2

def OFPAT_STRIP_VLAN : Nat := 3

def OFPAT_SET_DL_SRC : Nat := 4

def OFPAT_SET_DL_DST : Nat := 5

def OFPAT_SET_NW_SRC : Nat := 6

def OFPAT_SET_NW_DST : Nat := 7

def OFPAT_SET_NW_TOS : Nat := 8

def OFPAT_SET_TP_SRC : Nat := 9

def OFPAT_SET_TP_DST : Nat := 10

def OFPAT_ENQUEUE : Nat := 11

def OFPAT_VENDOR : Nat := 0xffff

def OFPET_BAD_REQUEST : Nat := 1

def OFPET_BAD_ACTION : Nat := 2

def OFPBRC_BAD_TYPE : Nat := 1

def OFPBRC_BAD_LEN : Nat := 6

def OFPBAC_BAD_TYPE : Nat := 0

def OFPBAC_BAD_LEN : Nat := 1

def OFPBAC_BAD_VENDOR : Nat := 2

def OFPBAC_BAD_VENDOR_TYPE : Nat := 3

def OFPBAC_BAD_OUT_PORT : Nat := 4

def OFPBAC_BAD_ARGUMENT : Nat := 5

def NX_VENDOR_ID : Nat := 0x2320

def NXAST_RESUBMIT : Nat := 1

def NXAST_SET_TUNNEL : Nat := 2

def NXAST_DROP_SPOOFED_ARP : Nat := 3

def NXAST_SET_QUEUE : Nat := 4

def NXAST_POP_QUEUE : Nat := 5

def NXAST_REG_MOVE : Nat := 6

def NXAST_REG_LOAD : Nat := 7

def NXAST_NOTE : Nat := 8

/-- Modelled from the spec: the error-descriptor encoding (ofp_mkerr,
ofp_mkerr_vendor, is_ofp_error and the get_ofp_err_* accessors live in
ofp-util.h, outside src/).  A descriptor multiplexes a vendor namespace tag
with a 16-bit type and a 16-bit code (spec section 3); it is encoded here
as ((vendor + 1) <<< 32) + (type <<< 16) + code, so that 0 (success) and
small errno values are never well-formed descriptors. -/
def ofp_mkerr_vendor (vendor typ code : Nat) : Nat :=
  ((vendor + 1) <<< 32) + (typ <<< 16) + code

def OFPUTIL_VENDOR_OPENFLOW : Nat := 0

def OFPUTIL_VENDOR_NICIRA : Nat := 1

def ofp_mkerr (typ code : Nat) : Nat :=
  ofp_mkerr_vendor OFPUTIL_VENDOR_OPENFLOW typ code

def is_ofp_error (e : Nat) : Bool := 2 ^ 32 ≤ e

def get_ofp_err_vendor (e : Nat) : Nat := (e >>> 32) - 1

def get_ofp_err_type (e : Nat) : Nat := (e >>> 16) &&& 0xffff

def get_ofp_err_code (e : Nat) : Nat := e &&& 0xffff

/-- The two extension-action field validators (nxm_check_reg_move and
nxm_check_reg_load live in lib/nx-match.c, outside src/ and outside this
spec); validate_actions is parameterized over them, receiving the byte run,
the slot index of the action, and the flow. -/
structure NxRegCheck where
  check_reg_move : List Nat → Nat → OfpFlow → Nat
  check_reg_load : List Nat → Nat → OfpFlow → Nat

def check_action_exact_len (len required_len : Nat) : Nat :=
  if len ≠ required_len then ofp_mkerr OFPET_BAD_ACTION OFPBAC_BAD_LEN else 0

/-- Transcription of check_output_port (src/lib/ofp-util.c). -/
def check_output_port (port : Nat) (max_ports : Nat) : Nat :=
  if port = OFPP_IN_PORT ∨ port = OFPP_TABLE ∨ port = OFPP_NORMAL ∨
     port = OFPP_FLOOD ∨ port = OFPP_ALL ∨ port = OFPP_CONTROLLER ∨
     port = OFPP_LOCAL then 0
  else if port < max_ports then 0
  else ofp_mkerr OFPET_BAD_ACTION OFPBAC_BAD_OUT_PORT

/-- Transcription of check_enqueue_action; the embedded port field sits at
byte offset 4 of the action. -/
def check_enqueue_action (bytes : List Nat) (i len : Nat)
    (max_ports : Nat) : Nat :=
  let e := check_action_exact_len len 16
  if e ≠ 0 then e
  else
    let port := be16 bytes (8 * i + 4)
    if port < max_ports ∨ port = OFPP_IN_PORT then 0
    else ofp_mkerr OFPET_BAD_ACTION OFPBAC_BAD_OUT_PORT

/-- Transcription of check_nicira_action; the vendor sub-type sits at byte
offset 8 of the action, and the reg-move / reg-load sub-actions are 24
bytes (sizes of nx_action_reg_move / nx_action_reg_load, nicira-ext.h). -/
def check_nicira_action (ck : NxRegCheck) (bytes : List Nat) (i len : Nat)
    (flow : OfpFlow) : Nat :=
  if len < 16 then ofp_mkerr OFPET_BAD_ACTION OFPBAC_BAD_LEN
  else
    let subtype := be16 bytes (8 * i + 8)
    if subtype = NXAST_RESUBMIT ∨ subtype = NXAST_SET_TUNNEL ∨
       subtype = NXAST_DROP_SPOOFED_ARP ∨ subtype = NXAST_SET_QUEUE ∨
       subtype = NXAST_POP_QUEUE then
      check_action_exact_len len 16
    else if subtype = NXAST_REG_MOVE then
      let e := check_action_exact_len len 24
      if e ≠ 0 then e else ck.check_reg_move bytes i flow
    else if subtype = NXAST_REG_LOAD then
      let e := check_action_exact_len len 24
      if e ≠ 0 then e else ck.check_reg_load bytes i flow
    else if subtype = NXAST_NOTE then 0
    else ofp_mkerr OFPET_BAD_ACTION OFPBAC_BAD_VENDOR_TYPE

/-- Transcription of check_action.  Value fields are read big-endian at
their struct offsets; the VLAN id and priority argument checks mask the
16-bit field read at offset 4 exactly as the C's & ~0xfff and & ~7 do on
that field. -/
def check_action (ck : NxRegCheck) (bytes : List Nat) (i len : Nat)
    (flow : OfpFlow) (max_ports : Nat) : Nat :=
  let typ := be16 bytes (8 * i)
  if typ = OFPAT_OUTPUT then
    let e := check_action_exact_len len 8
    if e ≠ 0 then e
    else check_output_port (be16 bytes (8 * i + 4)) max_ports
  else if typ = OFPAT_SET_VLAN_VID then
    let e := check_action_exact_len len 8
    if e ≠ 0 then e
    else if be16 bytes (8 * i + 4) &&& 0xf000 ≠ 0 then
      ofp_mkerr OFPET_BAD_ACTION OFPBAC_BAD_ARGUMENT
    else 0
  else if typ = OFPAT_SET_VLAN_PCP then
    let e := check_action_exact_len len 8
    if e ≠ 0 then e
    else if be16 bytes (8 * i + 4) &&& 0xfff8 ≠ 0 then
      ofp_mkerr OFPET_BAD_ACTION OFPBAC_BAD_ARGUMENT
    else 0
  else if typ = OFPAT_STRIP_VLAN ∨ typ = OFPAT_SET_NW_SRC ∨
          typ = OFPAT_SET_NW_DST ∨ typ = OFPAT_SET_NW_TOS ∨
          typ = OFPAT_SET_TP_SRC ∨ typ = OFPAT_SET_TP_DST then
    check_action_exact_len len 8
  else if typ = OFPAT_SET_DL_SRC ∨ typ = OFPAT_SET_DL_DST then
    check_action_exact_len len 16
  else if typ = OFPAT_VENDOR then
    if be32 bytes (8 * i + 4) = NX_VENDOR_ID then
      check_nicira_action ck bytes i len flow
    else ofp_mkerr OFPET_BAD_ACTION OFPBAC_BAD_VENDOR
  else if typ = OFPAT_ENQUEUE then
    check_enqueue_action bytes i len max_ports
  else ofp_mkerr OFPET_BAD_ACTION OFPBAC_BAD_TYPE

/-- The walk of validate_actions starting at slot index i, over a run of
n_actions 8-byte slots whose raw bytes are in `bytes`. -/
def validate_actions_from (ck : NxRegCheck) (bytes : List Nat)
    (n_actions : Nat) (flow : OfpFlow) (max_ports : Nat) (i : Nat) : Nat :=
  if hi : i < n_actions then
    if hs : be16 bytes (8 * i + 2) / OFP_ACTION_ALIGN > n_actions - i then
      ofp_mkerr OFPET_BAD_ACTION OFPBAC_BAD_LEN
    else if hz : be16 bytes (8 * i + 2) = 0 then
      ofp_mkerr OFPET_BAD_ACTION OFPBAC_BAD_LEN
    else if hm : be16 bytes (8 * i + 2) % OFP_ACTION_ALIGN ≠ 0 then
      ofp_mkerr OFPET_BAD_ACTION OFPBAC_BAD_LEN
    else
      let e := check_action ck bytes i (be16 bytes (8 * i + 2)) flow max_ports
      if e ≠ 0 then e
      else validate_actions_from ck bytes n_actions flow max_ports
        (i + be16 bytes (8 * i + 2) / OFP_ACTION_ALIGN)
  else 0
termination_by n_actions - i
decreasing_by
  simp only [OFP_ACTION_ALIGN] at *
  omega

/-- Transcription of validate_actions (src/lib/ofp-util.c): the loop of
validate_actions_from started at slot 0. -/
def validate_actions (ck : NxRegCheck) (bytes : List Nat) (n_actions : Nat)
    (flow : OfpFlow) (max_ports : Nat) : Nat :=
  validate_actions_from ck bytes n_actions flow max_ports 0

/-- Reg checkers that accept everything, for concrete witnesses. -/
def nullRegCheck : NxRegCheck :=
  { check_reg_move := fun _ _ _ => 0, check_reg_load := fun _ _ _ => 0 }

/-- An all-zero flow, for concrete witnesses. -/
def zeroFlow : OfpFlow :=
  { tun_id := 0, nw_src := 0, nw_dst := 0, in_port := 0, dl_vlan := 0,
    dl_src := 0, dl_dst := 0, dl_type := 0, tp_src := 0, tp_dst := 0,
    dl_vlan_pcp := 0, nw_tos := 0, nw_proto := 0 }

/-! ## The flow-stats iterator -/

/-- Size of struct ofp_flow_stats (the minimum record size) and of one
per-action slot (struct ofp_action_header), per the OpenFlow 1.0 wire
layout in openflow.h (outside src/). -/
def OFP_FLOW_STATS_SIZE : Nat := 88

def OFP_ACTION_HEADER_SIZE : Nat := 8

/-- Transcription of flow_stats_next (src/lib/ofp-util.c).  The cursor is
modelled by the list of bytes between pos and end; on success the record
(its own declared length of bytes) and the advanced remainder are
returned.  Returning none at a nonzero leftover, a short declared length,
an overlong declared length or a ragged action tail mirrors the four
logged early returns of the C. -/
def flow_stats_next (bytes : List Nat) : Option (List Nat × List Nat) :=
  if bytes.length < OFP_FLOW_STATS_SIZE then none
  else
    let length := be16 bytes 0
    if length < OFP_FLOW_STATS_SIZE then none
    else if length > bytes.length then none
    else if (length - OFP_FLOW_STATS_SIZE) % OFP_ACTION_HEADER_SIZE ≠ 0 then
      none
    else some (bytes.take length, bytes.drop length)

/-- flow_stats_first initializes the cursor to the whole reply body and
takes one step. -/
def flow_stats_first (body : List Nat) : Option (List Nat × List Nat) :=
  flow_stats_next body

/-! ## Error message construction (make_ofp_error_msg) -/

def OFP_VERSION : Nat := 1

def OFPT_ERROR : Nat := 1

def OFPT_ECHO_REQUEST : Nat := 2

def OFPT_VENDOR : Nat := 4

def OFPT_PACKET_IN : Nat := 10

def OFPT_PACKET_OUT : Nat := 13

def OFPT_FLOW_MOD : Nat := 14

/-- Vendor extension error constants (nicira-ext.h, outside src/). -/
def NXET_VENDOR : Nat := 0xb0c2

def NXVC_VENDOR_ERROR : Nat := 0

/-- Modelled from the spec: the static vendor-tag-to-id table
(OFPUTIL_VENDORS in ofp-util.h, outside src/); an unknown tag maps to
UINT32_MAX, the C sentinel for failure. -/
def vendor_code_to_id (code : Nat) : Nat :=
  if code = OFPUTIL_VENDOR_OPENFLOW then 0x00000000
  else if code = OFPUTIL_VENDOR_NICIRA then NX_VENDOR_ID
  else 0xffffffff

/-- The constructed OFPT_ERROR message: its transaction id, the 16-bit
type/code of the base body, the optional nested vendor extension triple
(vendor id, type, code), the echoed prefix of the offending message, and
the stamped total length. -/
structure OfpErrorBuf where
  xid : Nat
  err_type : Nat
  err_code : Nat
  vendor_ext : Option (Nat × Nat × Nat)
  echo : List Nat
  total_len : Nat
deriving DecidableEq, Repr

/-- Transcription of make_ofp_error_msg (src/lib/ofp-util.c).  The
original message header, when present, is the raw byte list of that
message; its declared length is the big-endian 16-bit field at offset 2
and its transaction id the 32-bit field at offset 4.  sizeof
ofp_error_msg = 12 and sizeof nx_vendor_error = 8. -/
def make_ofp_error_msg (error : Nat) (oh : Option (List Nat)) :
    Option OfpErrorBuf :=
  if ¬ is_ofp_error error then none
  else
    let xid := match oh with
      | some msg => be32 msg 4
      | none => 0
    let len := match oh with
      | some msg => min (be16 msg 2) 64
      | none => 0
    let data := match oh with
      | some msg => msg
      | none => []
    let vendor := get_ofp_err_vendor error
    let typ := get_ofp_err_type error
    let code := get_ofp_err_code error
    if vendor = OFPUTIL_VENDOR_OPENFLOW then
      some { xid := xid, err_type := typ, err_code := code,
             vendor_ext := none, echo := data.take len,
             total_len := len + 12 }
    else
      let vendor_id := vendor_code_to_id vendor
      if vendor_id = 0xffffffff then none
      else
        some { xid := xid, err_type := NXET_VENDOR,
               err_code := NXVC_VENDOR_ERROR,
               vendor_ext := some (vendor_id, typ, code),
               echo := data.take len, total_len := len + 12 + 8 }

/-! ## Message builders and the transaction-id counter -/

/-- The fixed OpenFlow header.  The builders below thread the process-wide
transaction-id counter explicitly: each takes the counter state and
returns it (incremented exactly when the C calls alloc_xid). -/
structure OfpHeader where
  version : Nat
  typ : Nat
  length : Nat
  xid : Nat
deriving DecidableEq, Repr

/-- alloc_xid: returns the current counter value and the incremented
counter (the C's static next_xid++, host order). -/
def alloc_xid (s : Nat) : Nat × Nat := (s, s + 1)

/-- put_openflow_xid stamps version/type/length/xid; the two asserts
(openflow_len within [8, 65535]) are programming-error checks. -/
def put_openflow_xid (openflow_len typ xid : Nat) : OfpHeader :=
  { version := OFP_VERSION, typ := typ, length := openflow_len, xid := xid }

/-- make_openflow draws a fresh transaction id from the counter. -/
def make_openflow (openflow_len typ : Nat) (s : Nat) : OfpHeader × Nat :=
  let (x, s') := alloc_xid s
  (put_openflow_xid openflow_len typ x, s')

/-- make_openflow_xid uses the caller's transaction id; the counter is
untouched. -/
def make_openflow_xid (openflow_len typ xid : Nat) (s : Nat) :
    OfpHeader × Nat :=
  (put_openflow_xid openflow_len typ xid, s)

/-- The Nicira vendor extension envelope. -/
structure NiciraHeader where
  header : OfpHeader
  vendor : Nat
  subtype : Nat
deriving DecidableEq, Repr

def make_nxmsg_xid (openflow_len subtype xid : Nat) (s : Nat) :
    NiciraHeader × Nat :=
  ({ header := put_openflow_xid openflow_len OFPT_VENDOR xid,
     vendor := NX_VENDOR_ID, subtype := subtype }, s)

/-- make_nxmsg draws a fresh transaction id from the counter. -/
def make_nxmsg (openflow_len subtype : Nat) (s : Nat) : NiciraHeader × Nat :=
  let (x, s') := alloc_xid s
  make_nxmsg_xid openflow_len subtype x s'

/-- put_openflow draws a fresh transaction id from the counter. -/
def put_openflow (openflow_len typ : Nat) (s : Nat) : OfpHeader × Nat :=
  let (x, s') := alloc_xid s
  (put_openflow_xid openflow_len typ x, s')

def OFPFC_ADD : Nat := 0

def OFPFC_DELETE_STRICT : Nat := 4

def OFP_FLOW_PERMANENT : Nat := 0

/-- struct ofp_flow_mod (72 bytes before the action array). -/
structure FlowModMsg where
  header : OfpHeader
  ofp_match : OfpMatch
  cookie : Nat
  command : Nat
  idle_timeout : Nat
  hard_timeout : Nat
  priority : Nat
  buffer_id : Nat
  out_port : Nat
  flags : Nat
  actions_len : Nat
deriving DecidableEq, Repr

/-- Transcription of make_flow_mod: the whole struct is zero-filled
(ofpbuf_put_zeros), then version/type/length, cookie, priority, match and
command are stamped; the transaction id is never written and stays 0. -/
def make_flow_mod (command : Nat) (rule : ClsRule) (actions_len : Nat)
    (s : Nat) : FlowModMsg × Nat :=
  ({ header := { version := OFP_VERSION, typ := OFPT_FLOW_MOD,
                 length := 72 + actions_len, xid := 0 },
     ofp_match := ofputil_cls_rule_to_match rule FlowFormat.NXFF_OPENFLOW10,
     cookie := 0, command := command, idle_timeout := 0, hard_timeout := 0,
     priority := min rule.priority 0xffff, buffer_id := 0, out_port := 0,
     flags := 0, actions_len := actions_len }, s)

def make_add_flow (rule : ClsRule) (buffer_id idle_timeout actions_len : Nat)
    (s : Nat) : FlowModMsg × Nat :=
  let (msg, s') := make_flow_mod OFPFC_ADD rule actions_len s
  ({ msg with idle_timeout := idle_timeout,
              hard_timeout := OFP_FLOW_PERMANENT,
              buffer_id := buffer_id }, s')

def make_del_flow (rule : ClsRule) (s : Nat) : FlowModMsg × Nat :=
  let (msg, s') := make_flow_mod OFPFC_DELETE_STRICT rule 0 s
  ({ msg with out_port := OFPP_NONE }, s')

/-- struct ofp_action_output. -/
structure OfpActionOutput where
  typ : Nat
  len : Nat
  port : Nat
deriving DecidableEq, Repr

def make_add_simple_flow (rule : ClsRule)
    (buffer_id out_port idle_timeout : Nat) (s : Nat) :
    (FlowModMsg × Option OfpActionOutput) × Nat :=
  if out_port ≠ OFPP_NONE then
    let (msg, s') := make_add_flow rule buffer_id idle_timeout 8 s
    ((msg, some { typ := OFPAT_OUTPUT, len := 8, port := out_port }), s')
  else
    let (msg, s') := make_add_flow rule buffer_id idle_timeout 0 s
    ((msg, none), s')

/-- struct ofp_packet_in (data at byte offset 18). -/
structure PacketInMsg where
  header : OfpHeader
  buffer_id : Nat
  total_len : Nat
  in_port : Nat
  reason : Nat
  data : List Nat
deriving DecidableEq, Repr

/-- Transcription of make_packet_in: xid 0, payload capped at
max_send_len, true length reported in total_len, final length restamped
by update_openflow_length. -/
def make_packet_in (buffer_id in_port reason : Nat) (payload : List Nat)
    (max_send_len : Nat) (s : Nat) : PacketInMsg × Nat :=
  let send_len := min max_send_len payload.length
  ({ header := { version := OFP_VERSION, typ := OFPT_PACKET_IN,
                 length := 18 + send_len, xid := 0 },
     buffer_id := buffer_id, total_len := payload.length,
     in_port := in_port, reason := reason,
     data := payload.take send_len }, s)

/-- struct ofp_packet_out (16 fixed bytes, then actions, then data). -/
structure PacketOutMsg where
  header : OfpHeader
  buffer_id : Nat
  in_port : Nat
  actions_len : Nat
  actions : List OfpActionOutput
  data : List Nat
deriving DecidableEq, Repr

def make_packet_out (packet : Option (List Nat)) (buffer_id in_port : Nat)
    (actions : List OfpActionOutput) (s : Nat) : PacketOutMsg × Nat :=
  let actions_len := actions.length * 8
  let size := 16 + actions_len +
    (match packet with | some pk => pk.length | none => 0)
  ({ header := { version := OFP_VERSION, typ := OFPT_PACKET_OUT,
                 length := size, xid := 0 },
     buffer_id := buffer_id,
     in_port := if in_port = ODPP_LOCAL then OFPP_LOCAL else in_port,
     actions_len := actions_len, actions := actions,
     data := match packet with | some pk => pk | none => [] }, s)

def make_unbuffered_packet_out (packet : List Nat) (in_port out_port : Nat)
    (s : Nat) : PacketOutMsg × Nat :=
  make_packet_out (some packet) 0xffffffff in_port
    [{ typ := OFPAT_OUTPUT, len := 8, port := out_port }] s

def make_buffered_packet_out (buffer_id in_port out_port : Nat) (s : Nat) :
    PacketOutMsg × Nat :=
  if out_port ≠ OFPP_NONE then
    make_packet_out none buffer_id in_port
      [{ typ := OFPAT_OUTPUT, len := 8, port := out_port }] s
  else
    make_packet_out none buffer_id in_port [] s

/-- Transcription of make_echo_request: fixed 8-byte message, xid 0. -/
def make_echo_request (s : Nat) : OfpHeader × Nat :=
  ({ version := OFP_VERSION, typ := OFPT_ECHO_REQUEST, length := 8,
     xid := 0 }, s)

theorem land_lor_distrib_right (a b c : Nat) :
    (a ||| b) &&& c = (a &&& c) ||| (b &&& c) := by
  rw [Nat.and_comm, Nat.and_or_distrib_left, Nat.and_comm c a, Nat.and_comm c b]

theorem land_land_self (a b c : Nat) :
    (a &&& b) &&& (a &&& c) = a &&& (b &&& c) := by
  apply Nat.eq_of_testBit_eq
  intro i
  simp only [Nat.testBit_and]
  cases a.testBit i <;> cases b.testBit i <;> cases c.testBit i <;> rfl

theorem land_self_left (a b : Nat) : a &&& (a &&& b) = a &&& b := by
  rw [← Nat.and_assoc, Nat.and_self]

theorem shift_extract (w k m : Nat) :
    ((w >>> k) &&& m) <<< k = w &&& (m <<< k) := by
  apply Nat.eq_of_testBit_eq
  intro i
  simp only [Nat.testBit_shiftLeft, Nat.testBit_and, Nat.testBit_shiftRight]
  by_cases h : k ≤ i
  · simp [h, Nat.add_sub_cancel' h]
  · simp [h]

theorem land_two_pow_eq (w k : Nat) :
    w &&& 2 ^ k = if w.testBit k then 2 ^ k else 0 := by
  apply Nat.eq_of_testBit_eq
  intro i
  by_cases hk : k = i
  · subst hk
    cases hb : w.testBit k <;> simp [Nat.testBit_and, Nat.testBit_two_pow, hb]
  · cases hb : w.testBit k <;>
      simp [Nat.testBit_and, Nat.testBit_two_pow, hb, hk]

theorem ite_land_two_pow (w k : Nat) :
    (if w &&& 2 ^ k ≠ 0 then 2 ^ k else 0) = w &&& 2 ^ k := by
  rw [land_two_pow_eq]
  cases hb : w.testBit k <;> simp [hb]

/-- C5: for every n in 0..=32 the netmask round-trip
netmask_to_wildcard_bits(wildcard_bits_to_netmask(n)) gives back n, and for
every n with 32 <= n <= 63 the produced netmask is the all-zero, fully
wildcarded mask. -/
theorem C5_netmask_roundtrip :
    (∀ n, n ≤ 32 →
      ofputil_netmask_to_wcbits (ofputil_wcbits_to_netmask n) = n) ∧
    (∀ n, 32 ≤ n → n ≤ 63 → ofputil_wcbits_to_netmask n = 0) := by
  constructor
  · decide
  · intro n h32 h63
    have : n &&& 0x3f = n := by
      have : n < 64 := by omega
      apply Nat.eq_of_testBit_eq
      intro i
      simp only [Nat.testBit_and]
      by_cases hi : i < 6
      · have : Nat.testBit 0x3f i = true := by interval_cases i <;> decide
        simp [this]
      · have hn : n.testBit i = false := by
          apply Nat.testBit_lt_two_pow
          calc n < 64 := by omega
            _ ≤ 2 ^ i := by
              have : 6 ≤ i := by omega
              calc (64 : Nat) = 2 ^ 6 := by norm_num
                _ ≤ 2 ^ i := Nat.pow_le_pow_right (by norm_num) this
        simp [hn]
    unfold ofputil_wcbits_to_netmask
    simp only [this]
    have : ¬ n < 32 := by omega
    simp [this]

/-- Witness for C5 at concrete inputs n = 7 and n = 40. -/
theorem C5_netmask_roundtrip_witness :
    ofputil_netmask_to_wcbits (ofputil_wcbits_to_netmask 7) = 7 ∧
    ofputil_wcbits_to_netmask 40 = 0 :=
  ⟨C5_netmask_roundtrip.1 7 (by decide), C5_netmask_roundtrip.2 40 (by decide) (by decide)⟩

theorem land_idem (w a : Nat) : (w &&& a) &&& a = w &&& a := by
  rw [Nat.and_assoc, Nat.and_self]

/-- Branch characterization: dl_type wildcarded. -/
theorem normalize_match_B1 (m : OfpMatch)
    (h1 : (m.wildcards &&& OVSFW_ALL) &&& OFPFW_DL_TYPE ≠ 0) :
    normalize_match m =
      { wildcards := (m.wildcards &&& OVSFW_ALL) ||| (OFPFW_NW ||| OFPFW_TP),
        in_port := m.in_port,
        dl_src := if (m.wildcards &&& OVSFW_ALL) &&& OFPFW_DL_SRC ≠ 0 then 0
          else m.dl_src,
        dl_dst := if (m.wildcards &&& OVSFW_ALL) &&& OFPFW_DL_DST ≠ 0 then 0
          else m.dl_dst,
        dl_vlan := m.dl_vlan, dl_vlan_pcp := m.dl_vlan_pcp, pad1 := m.pad1,
        dl_type := 0, nw_tos := 0, nw_proto := 0, pad2 := m.pad2,
        nw_src := 0, nw_dst := 0, tp_src := 0, tp_dst := 0 } := by
  have hsrc : ((m.wildcards &&& OVSFW_ALL) ||| (OFPFW_NW ||| OFPFW_TP)) &&& OFPFW_DL_SRC
      = (m.wildcards &&& OVSFW_ALL) &&& OFPFW_DL_SRC := by
    rw [land_lor_distrib_right,
      (by decide : (OFPFW_NW ||| OFPFW_TP) &&& OFPFW_DL_SRC = 0), Nat.or_zero]
  have hdst : ((m.wildcards &&& OVSFW_ALL) ||| (OFPFW_NW ||| OFPFW_TP)) &&& OFPFW_DL_DST
      = (m.wildcards &&& OVSFW_ALL) &&& OFPFW_DL_DST := by
    rw [land_lor_distrib_right,
      (by decide : (OFPFW_NW ||| OFPFW_TP) &&& OFPFW_DL_DST = 0), Nat.or_zero]
  simp only [normalize_match]
  rw [if_pos h1]
  simp [hsrc, hdst]

theorem lor_shiftRight (a b k : Nat) :
    (a ||| b) >>> k = (a >>> k) ||| (b >>> k) := by
  apply Nat.eq_of_testBit_eq
  intro i
  simp [Nat.testBit_shiftRight, Nat.testBit_or]

theorem land_shiftRight (a b k : Nat) :
    (a &&& b) >>> k = (a >>> k) &&& (b >>> k) := by
  apply Nat.eq_of_testBit_eq
  intro i
  simp [Nat.testBit_shiftRight, Nat.testBit_and]

theorem wcbits_to_netmask_congr (a b : Nat) (h : a &&& 0x3f = b &&& 0x3f) :
    ofputil_wcbits_to_netmask a = ofputil_wcbits_to_netmask b := by
  simp only [ofputil_wcbits_to_netmask, h]

/-- Branch characterization: dl_type exact and IP, nw_proto wildcarded. -/
theorem normalize_match_B2a (m : OfpMatch)
    (h1 : (m.wildcards &&& OVSFW_ALL) &&& OFPFW_DL_TYPE = 0)
    (h2 : m.dl_type = ETH_TYPE_IP)
    (h3 : (m.wildcards &&& OVSFW_ALL) &&& OFPFW_NW_PROTO ≠ 0) :
    normalize_match m =
      { wildcards := (m.wildcards &&& OVSFW_ALL) ||| OFPFW_TP,
        in_port := m.in_port,
        dl_src := if (m.wildcards &&& OVSFW_ALL) &&& OFPFW_DL_SRC ≠ 0 then 0
          else m.dl_src,
        dl_dst := if (m.wildcards &&& OVSFW_ALL) &&& OFPFW_DL_DST ≠ 0 then 0
          else m.dl_dst,
        dl_vlan := m.dl_vlan, dl_vlan_pcp := m.dl_vlan_pcp, pad1 := m.pad1,
        dl_type := m.dl_type,
        nw_tos := if (m.wildcards &&& OVSFW_ALL) &&& OFPFW_NW_TOS ≠ 0 then 0
          else m.nw_tos &&& IP_DSCP_MASK,
        nw_proto := 0, pad2 := m.pad2,
        nw_src := if (m.wildcards &&& OVSFW_ALL) &&& OFPFW_NW_SRC_MASK ≠ 0 then
            m.nw_src &&& ofputil_wcbits_to_netmask
              ((m.wildcards &&& OVSFW_ALL) >>> OFPFW_NW_SRC_SHIFT)
          else m.nw_src,
        nw_dst := if (m.wildcards &&& OVSFW_ALL) &&& OFPFW_NW_DST_MASK ≠ 0 then
            m.nw_dst &&& ofputil_wcbits_to_netmask
              ((m.wildcards &&& OVSFW_ALL) >>> OFPFW_NW_DST_SHIFT)
          else m.nw_dst,
        tp_src := 0, tp_dst := 0 } := by
  have hd : ∀ c : Nat, ((m.wildcards &&& OVSFW_ALL) ||| OFPFW_TP) &&& c
      = ((m.wildcards &&& OVSFW_ALL) &&& c) ||| (OFPFW_TP &&& c) :=
    fun c => land_lor_distrib_right _ _ c
  have hsm : ((m.wildcards &&& OVSFW_ALL) ||| OFPFW_TP) &&& OFPFW_NW_SRC_MASK
      = (m.wildcards &&& OVSFW_ALL) &&& OFPFW_NW_SRC_MASK := by
    rw [hd, (by decide : OFPFW_TP &&& OFPFW_NW_SRC_MASK = 0), Nat.or_zero]
  have hdm : ((m.wildcards &&& OVSFW_ALL) ||| OFPFW_TP) &&& OFPFW_NW_DST_MASK
      = (m.wildcards &&& OVSFW_ALL) &&& OFPFW_NW_DST_MASK := by
    rw [hd, (by decide : OFPFW_TP &&& OFPFW_NW_DST_MASK = 0), Nat.or_zero]
  have htos : ((m.wildcards &&& OVSFW_ALL) ||| OFPFW_TP) &&& OFPFW_NW_TOS
      = (m.wildcards &&& OVSFW_ALL) &&& OFPFW_NW_TOS := by
    rw [hd, (by decide : OFPFW_TP &&& OFPFW_NW_TOS = 0), Nat.or_zero]
  have hsrc : ((m.wildcards &&& OVSFW_ALL) ||| OFPFW_TP) &&& OFPFW_DL_SRC
      = (m.wildcards &&& OVSFW_ALL) &&& OFPFW_DL_SRC := by
    rw [hd, (by decide : OFPFW_TP &&& OFPFW_DL_SRC = 0), Nat.or_zero]
  have hdst : ((m.wildcards &&& OVSFW_ALL) ||| OFPFW_TP) &&& OFPFW_DL_DST
      = (m.wildcards &&& OVSFW_ALL) &&& OFPFW_DL_DST := by
    rw [hd, (by decide : OFPFW_TP &&& OFPFW_DL_DST = 0), Nat.or_zero]
  have hshs : (((m.wildcards &&& OVSFW_ALL) ||| OFPFW_TP) >>> OFPFW_NW_SRC_SHIFT)
      = (m.wildcards &&& OVSFW_ALL) >>> OFPFW_NW_SRC_SHIFT := by
    rw [lor_shiftRight,
      (by decide : (OFPFW_TP : Nat) >>> OFPFW_NW_SRC_SHIFT = 0), Nat.or_zero]
  have hshd : (((m.wildcards &&& OVSFW_ALL) ||| OFPFW_TP) >>> OFPFW_NW_DST_SHIFT)
      = (m.wildcards &&& OVSFW_ALL) >>> OFPFW_NW_DST_SHIFT := by
    rw [lor_shiftRight,
      (by decide : (OFPFW_TP : Nat) >>> OFPFW_NW_DST_SHIFT = 0), Nat.or_zero]
  simp only [normalize_match]
  rw [if_neg (by simp [h1]), if_pos h2, if_pos h3]
  simp [hsm, hdm, htos, hsrc, hdst, hshs, hshd]

/-- Branch characterization: IP, nw_proto exact and TCP/UDP/ICMP. -/
theorem normalize_match_B2b (m : OfpMatch)
    (h1 : (m.wildcards &&& OVSFW_ALL) &&& OFPFW_DL_TYPE = 0)
    (h2 : m.dl_type = ETH_TYPE_IP)
    (h3 : (m.wildcards &&& OVSFW_ALL) &&& OFPFW_NW_PROTO = 0)
    (h4 : m.nw_proto = IPPROTO_TCP ∨ m.nw_proto = IPPROTO_UDP ∨
          m.nw_proto = IPPROTO_ICMP) :
    normalize_match m =
      { wildcards := m.wildcards &&& OVSFW_ALL,
        in_port := m.in_port,
        dl_src := if (m.wildcards &&& OVSFW_ALL) &&& OFPFW_DL_SRC ≠ 0 then 0
          else m.dl_src,
        dl_dst := if (m.wildcards &&& OVSFW_ALL) &&& OFPFW_DL_DST ≠ 0 then 0
          else m.dl_dst,
        dl_vlan := m.dl_vlan, dl_vlan_pcp := m.dl_vlan_pcp, pad1 := m.pad1,
        dl_type := m.dl_type,
        nw_tos := if (m.wildcards &&& OVSFW_ALL) &&& OFPFW_NW_TOS ≠ 0 then 0
          else m.nw_tos &&& IP_DSCP_MASK,
        nw_proto := m.nw_proto, pad2 := m.pad2,
        nw_src := if (m.wildcards &&& OVSFW_ALL) &&& OFPFW_NW_SRC_MASK ≠ 0 then
            m.nw_src &&& ofputil_wcbits_to_netmask
              ((m.wildcards &&& OVSFW_ALL) >>> OFPFW_NW_SRC_SHIFT)
          else m.nw_src,
        nw_dst := if (m.wildcards &&& OVSFW_ALL) &&& OFPFW_NW_DST_MASK ≠ 0 then
            m.nw_dst &&& ofputil_wcbits_to_netmask
              ((m.wildcards &&& OVSFW_ALL) >>> OFPFW_NW_DST_SHIFT)
          else m.nw_dst,
        tp_src := if (m.wildcards &&& OVSFW_ALL) &&& OFPFW_TP_SRC ≠ 0 then 0
          else m.tp_src,
        tp_dst := if (m.wildcards &&& OVSFW_ALL) &&& OFPFW_TP_DST ≠ 0 then 0
          else m.tp_dst } := by
  simp only [normalize_match]
  rw [if_neg (by simp [h1]), if_pos h2, if_neg (by simp [h3]), if_pos h4]

/-- Branch characterization: IP, nw_proto exact, some other protocol. -/
theorem normalize_match_B2c (m : OfpMatch)
    (h1 : (m.wildcards &&& OVSFW_ALL) &&& OFPFW_DL_TYPE = 0)
    (h2 : m.dl_type = ETH_TYPE_IP)
    (h3 : (m.wildcards &&& OVSFW_ALL) &&& OFPFW_NW_PROTO = 0)
    (h4 : ¬ (m.nw_proto = IPPROTO_TCP ∨ m.nw_proto = IPPROTO_UDP ∨
          m.nw_proto = IPPROTO_ICMP)) :
    normalize_match m =
      { wildcards := (m.wildcards &&& OVSFW_ALL) &&& (MASK32 ^^^ OFPFW_TP),
        in_port := m.in_port,
        dl_src := if (m.wildcards &&& OVSFW_ALL) &&& OFPFW_DL_SRC ≠ 0 then 0
          else m.dl_src,
        dl_dst := if (m.wildcards &&& OVSFW_ALL) &&& OFPFW_DL_DST ≠ 0 then 0
          else m.dl_dst,
        dl_vlan := m.dl_vlan, dl_vlan_pcp := m.dl_vlan_pcp, pad1 := m.pad1,
        dl_type := m.dl_type,
        nw_tos := if (m.wildcards &&& OVSFW_ALL) &&& OFPFW_NW_TOS ≠ 0 then 0
          else m.nw_tos &&& IP_DSCP_MASK,
        nw_proto := m.nw_proto, pad2 := m.pad2,
        nw_src := if (m.wildcards &&& OVSFW_ALL) &&& OFPFW_NW_SRC_MASK ≠ 0 then
            m.nw_src &&& ofputil_wcbits_to_netmask
              ((m.wildcards &&& OVSFW_ALL) >>> OFPFW_NW_SRC_SHIFT)
          else m.nw_src,
        nw_dst := if (m.wildcards &&& OVSFW_ALL) &&& OFPFW_NW_DST_MASK ≠ 0 then
            m.nw_dst &&& ofputil_wcbits_to_netmask
              ((m.wildcards &&& OVSFW_ALL) >>> OFPFW_NW_DST_SHIFT)
          else m.nw_dst,
        tp_src := 0, tp_dst := 0 } := by
  have hsm : ((m.wildcards &&& OVSFW_ALL) &&& (MASK32 ^^^ OFPFW_TP)) &&& OFPFW_NW_SRC_MASK
      = (m.wildcards &&& OVSFW_ALL) &&& OFPFW_NW_SRC_MASK := by
    rw [Nat.and_assoc,
      (by decide : (MASK32 ^^^ OFPFW_TP) &&& OFPFW_NW_SRC_MASK = OFPFW_NW_SRC_MASK)]
  have hdm : ((m.wildcards &&& OVSFW_ALL) &&& (MASK32 ^^^ OFPFW_TP)) &&& OFPFW_NW_DST_MASK
      = (m.wildcards &&& OVSFW_ALL) &&& OFPFW_NW_DST_MASK := by
    rw [Nat.and_assoc,
      (by decide : (MASK32 ^^^ OFPFW_TP) &&& OFPFW_NW_DST_MASK = OFPFW_NW_DST_MASK)]
  have htos : ((m.wildcards &&& OVSFW_ALL) &&& (MASK32 ^^^ OFPFW_TP)) &&& OFPFW_NW_TOS
      = (m.wildcards &&& OVSFW_ALL) &&& OFPFW_NW_TOS := by
    rw [Nat.and_assoc,
      (by decide : (MASK32 ^^^ OFPFW_TP) &&& OFPFW_NW_TOS = OFPFW_NW_TOS)]
  have hsrc : ((m.wildcards &&& OVSFW_ALL) &&& (MASK32 ^^^ OFPFW_TP)) &&& OFPFW_DL_SRC
      = (m.wildcards &&& OVSFW_ALL) &&& OFPFW_DL_SRC := by
    rw [Nat.and_assoc,
      (by decide : (MASK32 ^^^ OFPFW_TP) &&& OFPFW_DL_SRC = OFPFW_DL_SRC)]
  have hdst : ((m.wildcards &&& OVSFW_ALL) &&& (MASK32 ^^^ OFPFW_TP)) &&& OFPFW_DL_DST
      = (m.wildcards &&& OVSFW_ALL) &&& OFPFW_DL_DST := by
    rw [Nat.and_assoc,
      (by decide : (MASK32 ^^^ OFPFW_TP) &&& OFPFW_DL_DST = OFPFW_DL_DST)]
  have hnms : ofputil_wcbits_to_netmask
      (((m.wildcards &&& OVSFW_ALL) &&& (MASK32 ^^^ OFPFW_TP)) >>> OFPFW_NW_SRC_SHIFT)
      = ofputil_wcbits_to_netmask ((m.wildcards &&& OVSFW_ALL) >>> OFPFW_NW_SRC_SHIFT) := by
    apply wcbits_to_netmask_congr
    rw [land_shiftRight, Nat.and_assoc,
      (by decide : (MASK32 ^^^ OFPFW_TP) >>> OFPFW_NW_SRC_SHIFT &&& 0x3f = 0x3f)]
  have hnmd : ofputil_wcbits_to_netmask
      (((m.wildcards &&& OVSFW_ALL) &&& (MASK32 ^^^ OFPFW_TP)) >>> OFPFW_NW_DST_SHIFT)
      = ofputil_wcbits_to_netmask ((m.wildcards &&& OVSFW_ALL) >>> OFPFW_NW_DST_SHIFT) := by
    apply wcbits_to_netmask_congr
    rw [land_shiftRight, Nat.and_assoc,
      (by decide : (MASK32 ^^^ OFPFW_TP) >>> OFPFW_NW_DST_SHIFT &&& 0x3f = 0x3f)]
  simp only [normalize_match]
  rw [if_neg (by simp [h1]), if_pos h2, if_neg (by simp [h3]), if_neg h4]
  simp [hsm, hdm, htos, hsrc, hdst, hnms, hnmd]

/-- Branch characterization: ARP. -/
theorem normalize_match_B3 (m : OfpMatch)
    (h1 : (m.wildcards &&& OVSFW_ALL) &&& OFPFW_DL_TYPE = 0)
    (h2 : m.dl_type ≠ ETH_TYPE_IP)
    (h3 : m.dl_type = ETH_TYPE_ARP) :
    normalize_match m =
      { wildcards := m.wildcards &&& OVSFW_ALL,
        in_port := m.in_port,
        dl_src := if (m.wildcards &&& OVSFW_ALL) &&& OFPFW_DL_SRC ≠ 0 then 0
          else m.dl_src,
        dl_dst := if (m.wildcards &&& OVSFW_ALL) &&& OFPFW_DL_DST ≠ 0 then 0
          else m.dl_dst,
        dl_vlan := m.dl_vlan, dl_vlan_pcp := m.dl_vlan_pcp, pad1 := m.pad1,
        dl_type := m.dl_type, nw_tos := 0,
        nw_proto := if (m.wildcards &&& OVSFW_ALL) &&& OFPFW_NW_PROTO ≠ 0 then 0
          else m.nw_proto,
        pad2 := m.pad2,
        nw_src := if (m.wildcards &&& OVSFW_ALL) &&& OFPFW_NW_SRC_MASK ≠ 0 then
            m.nw_src &&& ofputil_wcbits_to_netmask
              ((m.wildcards &&& OVSFW_ALL) >>> OFPFW_NW_SRC_SHIFT)
          else m.nw_src,
        nw_dst := if (m.wildcards &&& OVSFW_ALL) &&& OFPFW_NW_DST_MASK ≠ 0 then
            m.nw_dst &&& ofputil_wcbits_to_netmask
              ((m.wildcards &&& OVSFW_ALL) >>> OFPFW_NW_DST_SHIFT)
          else m.nw_dst,
        tp_src := 0, tp_dst := 0 } := by
  simp only [normalize_match]
  rw [if_neg (by simp [h1]), if_neg h2, if_pos h3]

/-- Branch characterization: unknown dl_type, exact-matched. -/
theorem normalize_match_B4 (m : OfpMatch)
    (h1 : (m.wildcards &&& OVSFW_ALL) &&& OFPFW_DL_TYPE = 0)
    (h2 : m.dl_type ≠ ETH_TYPE_IP)
    (h3 : m.dl_type ≠ ETH_TYPE_ARP) :
    normalize_match m =
      { wildcards := (m.wildcards &&& OVSFW_ALL)
          &&& (MASK32 ^^^ (OFPFW_NW ||| OFPFW_TP)),
        in_port := m.in_port,
        dl_src := if (m.wildcards &&& OVSFW_ALL) &&& OFPFW_DL_SRC ≠ 0 then 0
          else m.dl_src,
        dl_dst := if (m.wildcards &&& OVSFW_ALL) &&& OFPFW_DL_DST ≠ 0 then 0
          else m.dl_dst,
        dl_vlan := m.dl_vlan, dl_vlan_pcp := m.dl_vlan_pcp, pad1 := m.pad1,
        dl_type := m.dl_type, nw_tos := 0, nw_proto := 0, pad2 := m.pad2,
        nw_src := 0, nw_dst := 0, tp_src := 0, tp_dst := 0 } := by
  have hsrc : ((m.wildcards &&& OVSFW_ALL) &&& (MASK32 ^^^ (OFPFW_NW ||| OFPFW_TP)))
      &&& OFPFW_DL_SRC = (m.wildcards &&& OVSFW_ALL) &&& OFPFW_DL_SRC := by
    rw [Nat.and_assoc,
      (by decide : (MASK32 ^^^ (OFPFW_NW ||| OFPFW_TP)) &&& OFPFW_DL_SRC = OFPFW_DL_SRC)]
  have hdst : ((m.wildcards &&& OVSFW_ALL) &&& (MASK32 ^^^ (OFPFW_NW ||| OFPFW_TP)))
      &&& OFPFW_DL_DST = (m.wildcards &&& OVSFW_ALL) &&& OFPFW_DL_DST := by
    rw [Nat.and_assoc,
      (by decide : (MASK32 ^^^ (OFPFW_NW ||| OFPFW_TP)) &&& OFPFW_DL_DST = OFPFW_DL_DST)]
  simp only [normalize_match]
  rw [if_neg (by simp [h1]), if_neg h2, if_neg h3]
  simp [hsrc, hdst]

theorem wsub_or (w a : Nat) (ha : a &&& OVSFW_ALL = a) :
    ((w &&& OVSFW_ALL ||| a) &&& OVSFW_ALL) = w &&& OVSFW_ALL ||| a := by
  rw [land_lor_distrib_right, land_idem, ha]

theorem or_extract (w a b : Nat) (hab : a &&& b = 0) :
    ((w &&& OVSFW_ALL ||| a) &&& b) = (w &&& OVSFW_ALL) &&& b := by
  rw [land_lor_distrib_right, hab, Nat.or_zero]

theorem ite_zero_idem (c : Prop) [Decidable c] (x : Nat) :
    (if c then (0:Nat) else (if c then 0 else x)) = if c then 0 else x := by
  by_cases h : c <;> simp [h]

/-- C4: normalize_match is idempotent, case of a wildcarded dl_type. -/
theorem normalize_idem_case1 (m : OfpMatch)
    (h1 : (m.wildcards &&& OVSFW_ALL) &&& OFPFW_DL_TYPE ≠ 0) :
    normalize_match (normalize_match m) = normalize_match m := by
  rw [normalize_match_B1 m h1]
  have hw : ((m.wildcards &&& OVSFW_ALL ||| (OFPFW_NW ||| OFPFW_TP)) &&& OVSFW_ALL)
      = m.wildcards &&& OVSFW_ALL ||| (OFPFW_NW ||| OFPFW_TP) :=
    wsub_or _ _ (by decide)
  have hyp1 : ((m.wildcards &&& OVSFW_ALL ||| (OFPFW_NW ||| OFPFW_TP)) &&& OVSFW_ALL)
      &&& OFPFW_DL_TYPE ≠ 0 := by
    rw [hw, or_extract _ _ _ (by decide)]
    exact h1
  rw [normalize_match_B1 _ hyp1]
  simp only [OfpMatch.mk.injEq, true_and, and_true]
  refine ⟨?_, ?_, ?_⟩
  · rw [hw, Nat.or_assoc, Nat.or_self]
  · rw [hw, or_extract _ _ _ (by decide), ite_zero_idem]
  · rw [hw, or_extract _ _ _ (by decide), ite_zero_idem]

theorem land_right_comm (a b c : Nat) : (a &&& b) &&& c = (a &&& c) &&& b := by
  rw [Nat.and_assoc, Nat.and_comm b c, ← Nat.and_assoc]

theorem wsub_and (w c : Nat) :
    ((w &&& OVSFW_ALL &&& c) &&& OVSFW_ALL) = w &&& OVSFW_ALL &&& c := by
  rw [land_right_comm, land_idem]

theorem and_extract (w c b : Nat) (hcb : c &&& b = b) :
    ((w &&& OVSFW_ALL &&& c) &&& b) = (w &&& OVSFW_ALL) &&& b := by
  rw [Nat.and_assoc, hcb]

theorem or_shift_zero (w a k : Nat) (hak : a >>> k = 0) :
    (w &&& OVSFW_ALL ||| a) >>> k = (w &&& OVSFW_ALL) >>> k := by
  rw [lor_shiftRight, hak, Nat.or_zero]

theorem ite_mask_idem (c : Prop) [Decidable c] (x k : Nat) :
    (if c then (0:Nat) else (if c then 0 else x &&& k) &&& k) =
      if c then 0 else x &&& k := by
  by_cases h : c <;> simp [h, Nat.and_assoc]

theorem ite_mask_idem2 (c : Prop) [Decidable c] (x k : Nat) :
    (if c then (if c then x &&& k else x) &&& k else (if c then x &&& k else x))
      = if c then x &&& k else x := by
  by_cases h : c <;> simp [h, Nat.and_assoc]

/-- C4 case: IP with wildcarded nw_proto. -/
theorem normalize_idem_case2a (m : OfpMatch)
    (h1 : (m.wildcards &&& OVSFW_ALL) &&& OFPFW_DL_TYPE = 0)
    (h2 : m.dl_type = ETH_TYPE_IP)
    (h3 : (m.wildcards &&& OVSFW_ALL) &&& OFPFW_NW_PROTO ≠ 0) :
    normalize_match (normalize_match m) = normalize_match m := by
  rw [normalize_match_B2a m h1 h2 h3]
  have hw : ((m.wildcards &&& OVSFW_ALL ||| OFPFW_TP) &&& OVSFW_ALL)
      = m.wildcards &&& OVSFW_ALL ||| OFPFW_TP := wsub_or _ _ (by decide)
  refine (normalize_match_B2a _ ?_ ?_ ?_).trans ?_
  · show ((m.wildcards &&& OVSFW_ALL ||| OFPFW_TP) &&& OVSFW_ALL)
      &&& OFPFW_DL_TYPE = 0
    rw [hw, or_extract _ _ _ (by decide)]; exact h1
  · show m.dl_type = ETH_TYPE_IP
    exact h2
  · show ((m.wildcards &&& OVSFW_ALL ||| OFPFW_TP) &&& OVSFW_ALL)
      &&& OFPFW_NW_PROTO ≠ 0
    rw [hw, or_extract _ _ _ (by decide)]; exact h3
  simp only [OfpMatch.mk.injEq, true_and, and_true, hw,
    or_extract _ _ _ (by decide : OFPFW_TP &&& OFPFW_DL_SRC = 0),
    or_extract _ _ _ (by decide : OFPFW_TP &&& OFPFW_DL_DST = 0),
    or_extract _ _ _ (by decide : OFPFW_TP &&& OFPFW_NW_TOS = 0),
    or_extract _ _ _ (by decide : OFPFW_TP &&& OFPFW_NW_SRC_MASK = 0),
    or_extract _ _ _ (by decide : OFPFW_TP &&& OFPFW_NW_DST_MASK = 0),
    or_shift_zero _ _ _ (by decide : (OFPFW_TP:Nat) >>> OFPFW_NW_SRC_SHIFT = 0),
    or_shift_zero _ _ _ (by decide : (OFPFW_TP:Nat) >>> OFPFW_NW_DST_SHIFT = 0)]
  refine ⟨?_, ?_, ?_, ?_, ?_, ?_⟩
  · rw [Nat.or_assoc, Nat.or_self]
  · exact ite_zero_idem _ _
  · exact ite_zero_idem _ _
  · exact ite_mask_idem _ _ _
  · exact ite_mask_idem2 _ _ _
  · exact ite_mask_idem2 _ _ _

/-- C4 case: IP with exact TCP/UDP/ICMP nw_proto. -/
theorem normalize_idem_case2b (m : OfpMatch)
    (h1 : (m.wildcards &&& OVSFW_ALL) &&& OFPFW_DL_TYPE = 0)
    (h2 : m.dl_type = ETH_TYPE_IP)
    (h3 : (m.wildcards &&& OVSFW_ALL) &&& OFPFW_NW_PROTO = 0)
    (h4 : m.nw_proto = IPPROTO_TCP ∨ m.nw_proto = IPPROTO_UDP ∨
          m.nw_proto = IPPROTO_ICMP) :
    normalize_match (normalize_match m) = normalize_match m := by
  rw [normalize_match_B2b m h1 h2 h3 h4]
  refine (normalize_match_B2b _ ?_ ?_ ?_ ?_).trans ?_
  · show ((m.wildcards &&& OVSFW_ALL) &&& OVSFW_ALL) &&& OFPFW_DL_TYPE = 0
    rw [land_idem]; exact h1
  · show m.dl_type = ETH_TYPE_IP
    exact h2
  · show ((m.wildcards &&& OVSFW_ALL) &&& OVSFW_ALL) &&& OFPFW_NW_PROTO = 0
    rw [land_idem]; exact h3
  · show m.nw_proto = IPPROTO_TCP ∨ m.nw_proto = IPPROTO_UDP ∨
      m.nw_proto = IPPROTO_ICMP
    exact h4
  simp only [OfpMatch.mk.injEq, true_and, and_true, and_self, land_idem,
    ite_zero_idem, ite_mask_idem, ite_mask_idem2]

/-- C4 case: IP with an exact nw_proto outside TCP/UDP/ICMP. -/
theorem normalize_idem_case2c (m : OfpMatch)
    (h1 : (m.wildcards &&& OVSFW_ALL) &&& OFPFW_DL_TYPE = 0)
    (h2 : m.dl_type = ETH_TYPE_IP)
    (h3 : (m.wildcards &&& OVSFW_ALL) &&& OFPFW_NW_PROTO = 0)
    (h4 : ¬ (m.nw_proto = IPPROTO_TCP ∨ m.nw_proto = IPPROTO_UDP ∨
          m.nw_proto = IPPROTO_ICMP)) :
    normalize_match (normalize_match m) = normalize_match m := by
  rw [normalize_match_B2c m h1 h2 h3 h4]
  have hnms : ofputil_wcbits_to_netmask
      ((m.wildcards &&& OVSFW_ALL &&& (MASK32 ^^^ OFPFW_TP)) >>> OFPFW_NW_SRC_SHIFT)
      = ofputil_wcbits_to_netmask
        ((m.wildcards &&& OVSFW_ALL) >>> OFPFW_NW_SRC_SHIFT) := by
    apply wcbits_to_netmask_congr
    rw [land_shiftRight, Nat.and_assoc,
      (by decide : (MASK32 ^^^ OFPFW_TP) >>> OFPFW_NW_SRC_SHIFT &&& 0x3f = 0x3f)]
  have hnmd : ofputil_wcbits_to_netmask
      ((m.wildcards &&& OVSFW_ALL &&& (MASK32 ^^^ OFPFW_TP)) >>> OFPFW_NW_DST_SHIFT)
      = ofputil_wcbits_to_netmask
        ((m.wildcards &&& OVSFW_ALL) >>> OFPFW_NW_DST_SHIFT) := by
    apply wcbits_to_netmask_congr
    rw [land_shiftRight, Nat.and_assoc,
      (by decide : (MASK32 ^^^ OFPFW_TP) >>> OFPFW_NW_DST_SHIFT &&& 0x3f = 0x3f)]
  have hes : (m.wildcards &&& OVSFW_ALL &&& (MASK32 ^^^ OFPFW_TP)) &&& OFPFW_DL_SRC
      = (m.wildcards &&& OVSFW_ALL) &&& OFPFW_DL_SRC :=
    and_extract _ _ _ (by decide)
  have hed : (m.wildcards &&& OVSFW_ALL &&& (MASK32 ^^^ OFPFW_TP)) &&& OFPFW_DL_DST
      = (m.wildcards &&& OVSFW_ALL) &&& OFPFW_DL_DST :=
    and_extract _ _ _ (by decide)
  have het : (m.wildcards &&& OVSFW_ALL &&& (MASK32 ^^^ OFPFW_TP)) &&& OFPFW_NW_TOS
      = (m.wildcards &&& OVSFW_ALL) &&& OFPFW_NW_TOS :=
    and_extract _ _ _ (by decide)
  have hesm : (m.wildcards &&& OVSFW_ALL &&& (MASK32 ^^^ OFPFW_TP)) &&& OFPFW_NW_SRC_MASK
      = (m.wildcards &&& OVSFW_ALL) &&& OFPFW_NW_SRC_MASK :=
    and_extract _ _ _ (by decide)
  have hedm : (m.wildcards &&& OVSFW_ALL &&& (MASK32 ^^^ OFPFW_TP)) &&& OFPFW_NW_DST_MASK
      = (m.wildcards &&& OVSFW_ALL) &&& OFPFW_NW_DST_MASK :=
    and_extract _ _ _ (by decide)
  refine (normalize_match_B2c _ ?_ ?_ ?_ ?_).trans ?_
  · show ((m.wildcards &&& OVSFW_ALL &&& (MASK32 ^^^ OFPFW_TP)) &&& OVSFW_ALL)
      &&& OFPFW_DL_TYPE = 0
    rw [wsub_and, and_extract _ _ _ (by decide)]; exact h1
  · show m.dl_type = ETH_TYPE_IP
    exact h2
  · show ((m.wildcards &&& OVSFW_ALL &&& (MASK32 ^^^ OFPFW_TP)) &&& OVSFW_ALL)
      &&& OFPFW_NW_PROTO = 0
    rw [wsub_and, and_extract _ _ _ (by decide)]; exact h3
  · show ¬ (m.nw_proto = IPPROTO_TCP ∨ m.nw_proto = IPPROTO_UDP ∨
      m.nw_proto = IPPROTO_ICMP)
    exact h4
  simp only [wsub_and, hnms, hnmd, hes, hed, het, hesm, hedm, land_idem,
    OfpMatch.mk.injEq, true_and, and_true, and_self,
    ite_zero_idem, ite_mask_idem, ite_mask_idem2]

/-- C4 case: ARP. -/
theorem normalize_idem_case3 (m : OfpMatch)
    (h1 : (m.wildcards &&& OVSFW_ALL) &&& OFPFW_DL_TYPE = 0)
    (h2 : m.dl_type ≠ ETH_TYPE_IP)
    (h3 : m.dl_type = ETH_TYPE_ARP) :
    normalize_match (normalize_match m) = normalize_match m := by
  rw [normalize_match_B3 m h1 h2 h3]
  refine (normalize_match_B3 _ ?_ ?_ ?_).trans ?_
  · show ((m.wildcards &&& OVSFW_ALL) &&& OVSFW_ALL) &&& OFPFW_DL_TYPE = 0
    rw [land_idem]; exact h1
  · show m.dl_type ≠ ETH_TYPE_IP
    exact h2
  · show m.dl_type = ETH_TYPE_ARP
    exact h3
  simp only [OfpMatch.mk.injEq, true_and, and_true, and_self, land_idem,
    ite_zero_idem, ite_mask_idem, ite_mask_idem2]

/-- C4 case: unknown dl_type. -/
theorem normalize_idem_case4 (m : OfpMatch)
    (h1 : (m.wildcards &&& OVSFW_ALL) &&& OFPFW_DL_TYPE = 0)
    (h2 : m.dl_type ≠ ETH_TYPE_IP)
    (h3 : m.dl_type ≠ ETH_TYPE_ARP) :
    normalize_match (normalize_match m) = normalize_match m := by
  rw [normalize_match_B4 m h1 h2 h3]
  have hes : (m.wildcards &&& OVSFW_ALL &&& (MASK32 ^^^ (OFPFW_NW ||| OFPFW_TP)))
      &&& OFPFW_DL_SRC = (m.wildcards &&& OVSFW_ALL) &&& OFPFW_DL_SRC :=
    and_extract _ _ _ (by decide)
  have hed : (m.wildcards &&& OVSFW_ALL &&& (MASK32 ^^^ (OFPFW_NW ||| OFPFW_TP)))
      &&& OFPFW_DL_DST = (m.wildcards &&& OVSFW_ALL) &&& OFPFW_DL_DST :=
    and_extract _ _ _ (by decide)
  refine (normalize_match_B4 _ ?_ ?_ ?_).trans ?_
  · show ((m.wildcards &&& OVSFW_ALL &&& (MASK32 ^^^ (OFPFW_NW ||| OFPFW_TP)))
      &&& OVSFW_ALL) &&& OFPFW_DL_TYPE = 0
    rw [wsub_and, and_extract _ _ _ (by decide)]; exact h1
  · show m.dl_type ≠ ETH_TYPE_IP
    exact h2
  · show m.dl_type ≠ ETH_TYPE_ARP
    exact h3
  simp only [wsub_and, hes, hed, land_idem, OfpMatch.mk.injEq,
    true_and, and_true, and_self, ite_zero_idem]

/-- C4: normalization is idempotent; for every wire match m,
normalize_match (normalize_match m) = normalize_match m. -/
theorem C4_normalize_idempotent (m : OfpMatch) :
    normalize_match (normalize_match m) = normalize_match m := by
  by_cases h1 : (m.wildcards &&& OVSFW_ALL) &&& OFPFW_DL_TYPE ≠ 0
  · exact normalize_idem_case1 m h1
  · push_neg at h1
    by_cases h2 : m.dl_type = ETH_TYPE_IP
    · by_cases h3 : (m.wildcards &&& OVSFW_ALL) &&& OFPFW_NW_PROTO ≠ 0
      · exact normalize_idem_case2a m h1 h2 h3
      · push_neg at h3
        by_cases h4 : m.nw_proto = IPPROTO_TCP ∨ m.nw_proto = IPPROTO_UDP ∨
            m.nw_proto = IPPROTO_ICMP
        · exact normalize_idem_case2b m h1 h2 h3 h4
        · exact normalize_idem_case2c m h1 h2 h3 h4
    · by_cases h3 : m.dl_type = ETH_TYPE_ARP
      · exact normalize_idem_case3 m h1 h2 h3
      · exact normalize_idem_case4 m h1 h2 h3

theorem preserve_base (a k v : Nat) (hkv : k &&& v = k) :
    (a &&& k) &&& (a &&& v) = a &&& k := by
  rw [land_land_self, hkv]

theorem preserve_or (a k v b : Nat) (hkv : k &&& v = k) (hkb : k &&& b = 0) :
    (a &&& k) &&& ((a &&& v) ||| b) = a &&& k := by
  rw [Nat.and_or_distrib_left, land_land_self, hkv, Nat.and_assoc, hkb,
    Nat.and_zero, Nat.or_zero]

theorem preserve_and (a k v c : Nat) (hkv : k &&& v = k) (hkc : k &&& c = k) :
    (a &&& k) &&& ((a &&& v) &&& c) = a &&& k := by
  rw [← Nat.and_assoc, land_land_self, hkv, Nat.and_assoc, hkc]

/-- C2 counterexample: the match with only the transport-source wildcard bit
set (a legal wildcard bit), dl_type exactly IP and nw_proto exactly 2
(neither TCP, UDP nor ICMP).  normalize_match clears that wildcard bit,
flipping the field from wildcarded to exact, so the claim as stated is
false. -/
theorem C2_counterexample :
    ({ wildcards := OFPFW_TP_SRC, in_port := 1, dl_src := 0, dl_dst := 0,
       dl_vlan := 0, dl_vlan_pcp := 0, pad1 := 0, dl_type := ETH_TYPE_IP,
       nw_tos := 0, nw_proto := 2, pad2 := 0, nw_src := 0, nw_dst := 0,
       tp_src := 0, tp_dst := 0 : OfpMatch }.wildcards &&& OVSFW_ALL)
        &&& OFPFW_TP_SRC ≠ 0 ∧
    (normalize_match
      { wildcards := OFPFW_TP_SRC, in_port := 1, dl_src := 0, dl_dst := 0,
        dl_vlan := 0, dl_vlan_pcp := 0, pad1 := 0, dl_type := ETH_TYPE_IP,
        nw_tos := 0, nw_proto := 2, pad2 := 0, nw_src := 0, nw_dst := 0,
        tp_src := 0, tp_dst := 0 }).wildcards &&& OFPFW_TP_SRC = 0 := by
  decide

/-- C2 (amended): normalize_match never clears a legal wildcard bit outside
the network-layer and transport-layer groups: every wildcard bit of m inside
OVSFW_ALL and outside OFPFW_NW ||| OFPFW_TP is still set in the wildcard
field of normalize_match m.  (The network/transport wildcard bits can be
cleared, together with zeroing of the fields they govern, when the protocol
layering makes those fields contentless.) -/
theorem C2_normalize_preserves_wildcards (m : OfpMatch) :
    (m.wildcards &&& (OVSFW_ALL &&& (MASK32 ^^^ (OFPFW_NW ||| OFPFW_TP))))
        &&& (normalize_match m).wildcards
      = m.wildcards &&& (OVSFW_ALL &&& (MASK32 ^^^ (OFPFW_NW ||| OFPFW_TP))) := by
  by_cases h1 : (m.wildcards &&& OVSFW_ALL) &&& OFPFW_DL_TYPE ≠ 0
  · rw [normalize_match_B1 m h1]
    exact preserve_or _ _ _ _ (by decide) (by decide)
  · push_neg at h1
    by_cases h2 : m.dl_type = ETH_TYPE_IP
    · by_cases h3 : (m.wildcards &&& OVSFW_ALL) &&& OFPFW_NW_PROTO ≠ 0
      · rw [normalize_match_B2a m h1 h2 h3]
        exact preserve_or _ _ _ _ (by decide) (by decide)
      · push_neg at h3
        by_cases h4 : m.nw_proto = IPPROTO_TCP ∨ m.nw_proto = IPPROTO_UDP ∨
            m.nw_proto = IPPROTO_ICMP
        · rw [normalize_match_B2b m h1 h2 h3 h4]
          exact preserve_base _ _ _ (by decide)
        · rw [normalize_match_B2c m h1 h2 h3 h4]
          exact preserve_and _ _ _ _ (by decide) (by decide)
    · by_cases h3 : m.dl_type = ETH_TYPE_ARP
      · rw [normalize_match_B3 m h1 h2 h3]
        exact preserve_base _ _ _ (by decide)
      · rw [normalize_match_B4 m h1 h2 h3]
        exact preserve_and _ _ _ _ (by decide) (by decide)

/-- C1 counterexample: the claim also asserts that a match with all
wildcard bits set yields priority 65535; on the code, such a match keeps
the caller-supplied priority.  Here every one of the 32 wildcard bits is
set and the requested priority 0 is kept. -/
theorem C1_counterexample :
    (ofputil_cls_rule_from_match
      { wildcards := MASK32, in_port := 0, dl_src := 0, dl_dst := 0,
        dl_vlan := 0, dl_vlan_pcp := 0, pad1 := 0, dl_type := 0,
        nw_tos := 0, nw_proto := 0, pad2 := 0, nw_src := 0, nw_dst := 0,
        tp_src := 0, tp_dst := 0 } 0 FlowFormat.NXFF_OPENFLOW10 0).priority
      = 0 := by
  decide

/-- C1 (amended): if the wildcard field of the match, masked with the
legal wildcard set of the flow format, is zero (a fully specified match),
the produced rule has priority 65535 regardless of the requested priority;
if instead all wildcard bits are set, the produced rule keeps exactly the
requested priority. -/
theorem C1_priority (m : OfpMatch) (p : Nat) (fmt : FlowFormat) (cookie : Nat) :
    ((m.wildcards &&&
        (if fmt = FlowFormat.NXFF_TUN_ID_FROM_COOKIE then OVSFW_ALL
         else OFPFW_ALL)) = 0 →
      (ofputil_cls_rule_from_match m p fmt cookie).priority = 0xffff) ∧
    (m.wildcards = MASK32 →
      (ofputil_cls_rule_from_match m p fmt cookie).priority = p) := by
  constructor
  · intro h
    simp only [ofputil_cls_rule_from_match, cls_rule_zero_wildcarded_fields, h]
    simp
  · intro h
    simp only [ofputil_cls_rule_from_match, cls_rule_zero_wildcarded_fields, h]
    cases fmt <;> simp <;> intro hc <;> exact absurd hc (by decide)

theorem ite_land_const (c : Prop) [Decidable c] (a b k : Nat) :
    (if c then a else b) &&& k = if c then a &&& k else b &&& k := by
  by_cases h : c <;> simp [h]

theorem fromMatchWCW_and (w k : Nat) :
    fromMatchWCW w &&& k
      = ((((w &&& (WC_INVARIANTS &&& k))
          ||| (if w &&& OFPFW_DL_VLAN_PCP ≠ 0 then FWW_DL_VLAN_PCP &&& k else 0))
          ||| (if w &&& OFPFW_NW_TOS ≠ 0 then FWW_NW_TOS &&& k else 0))
          ||| (if w &&& NXFW_TUN_ID = 0 then 0 else FWW_TUN_ID &&& k))
          ||| (if w &&& OFPFW_DL_DST ≠ 0 then FWW_ETH_MCAST &&& k else 0) := by
  simp only [fromMatchWCW, land_lor_distrib_right, ite_land_const,
    Nat.zero_and, Nat.and_assoc]

theorem fromMatchWCW_IN_PORT (w : Nat) :
    fromMatchWCW w &&& FWW_IN_PORT = w &&& OFPFW_IN_PORT := by
  rw [fromMatchWCW_and,
    (by decide : WC_INVARIANTS &&& FWW_IN_PORT = OFPFW_IN_PORT),
    (by decide : FWW_DL_VLAN_PCP &&& FWW_IN_PORT = 0),
    (by decide : FWW_NW_TOS &&& FWW_IN_PORT = 0),
    (by decide : FWW_TUN_ID &&& FWW_IN_PORT = 0),
    (by decide : FWW_ETH_MCAST &&& FWW_IN_PORT = 0)]
  simp

theorem fromMatchWCW_DL_VLAN (w : Nat) :
    fromMatchWCW w &&& FWW_DL_VLAN = w &&& OFPFW_DL_VLAN := by
  rw [fromMatchWCW_and,
    (by decide : WC_INVARIANTS &&& FWW_DL_VLAN = OFPFW_DL_VLAN),
    (by decide : FWW_DL_VLAN_PCP &&& FWW_DL_VLAN = 0),
    (by decide : FWW_NW_TOS &&& FWW_DL_VLAN = 0),
    (by decide : FWW_TUN_ID &&& FWW_DL_VLAN = 0),
    (by decide : FWW_ETH_MCAST &&& FWW_DL_VLAN = 0)]
  simp

theorem fromMatchWCW_DL_SRC (w : Nat) :
    fromMatchWCW w &&& FWW_DL_SRC = w &&& OFPFW_DL_SRC := by
  rw [fromMatchWCW_and,
    (by decide : WC_INVARIANTS &&& FWW_DL_SRC = OFPFW_DL_SRC),
    (by decide : FWW_DL_VLAN_PCP &&& FWW_DL_SRC = 0),
    (by decide : FWW_NW_TOS &&& FWW_DL_SRC = 0),
    (by decide : FWW_TUN_ID &&& FWW_DL_SRC = 0),
    (by decide : FWW_ETH_MCAST &&& FWW_DL_SRC = 0)]
  simp

theorem fromMatchWCW_DL_DST (w : Nat) :
    fromMatchWCW w &&& FWW_DL_DST = w &&& OFPFW_DL_DST := by
  rw [fromMatchWCW_and,
    (by decide : WC_INVARIANTS &&& FWW_DL_DST = OFPFW_DL_DST),
    (by decide : FWW_DL_VLAN_PCP &&& FWW_DL_DST = 0),
    (by decide : FWW_NW_TOS &&& FWW_DL_DST = 0),
    (by decide : FWW_TUN_ID &&& FWW_DL_DST = 0),
    (by decide : FWW_ETH_MCAST &&& FWW_DL_DST = 0)]
  simp

theorem fromMatchWCW_DL_TYPE (w : Nat) :
    fromMatchWCW w &&& FWW_DL_TYPE = w &&& OFPFW_DL_TYPE := by
  rw [fromMatchWCW_and,
    (by decide : WC_INVARIANTS &&& FWW_DL_TYPE = OFPFW_DL_TYPE),
    (by decide : FWW_DL_VLAN_PCP &&& FWW_DL_TYPE = 0),
    (by decide : FWW_NW_TOS &&& FWW_DL_TYPE = 0),
    (by decide : FWW_TUN_ID &&& FWW_DL_TYPE = 0),
    (by decide : FWW_ETH_MCAST &&& FWW_DL_TYPE = 0)]
  simp

theorem fromMatchWCW_NW_PROTO (w : Nat) :
    fromMatchWCW w &&& FWW_NW_PROTO = w &&& OFPFW_NW_PROTO := by
  rw [fromMatchWCW_and,
    (by decide : WC_INVARIANTS &&& FWW_NW_PROTO = OFPFW_NW_PROTO),
    (by decide : FWW_DL_VLAN_PCP &&& FWW_NW_PROTO = 0),
    (by decide : FWW_NW_TOS &&& FWW_NW_PROTO = 0),
    (by decide : FWW_TUN_ID &&& FWW_NW_PROTO = 0),
    (by decide : FWW_ETH_MCAST &&& FWW_NW_PROTO = 0)]
  simp

theorem fromMatchWCW_TP_SRC (w : Nat) :
    fromMatchWCW w &&& FWW_TP_SRC = w &&& OFPFW_TP_SRC := by
  rw [fromMatchWCW_and,
    (by decide : WC_INVARIANTS &&& FWW_TP_SRC = OFPFW_TP_SRC),
    (by decide : FWW_DL_VLAN_PCP &&& FWW_TP_SRC = 0),
    (by decide : FWW_NW_TOS &&& FWW_TP_SRC = 0),
    (by decide : FWW_TUN_ID &&& FWW_TP_SRC = 0),
    (by decide : FWW_ETH_MCAST &&& FWW_TP_SRC = 0)]
  simp

theorem fromMatchWCW_TP_DST (w : Nat) :
    fromMatchWCW w &&& FWW_TP_DST = w &&& OFPFW_TP_DST := by
  rw [fromMatchWCW_and,
    (by decide : WC_INVARIANTS &&& FWW_TP_DST = OFPFW_TP_DST),
    (by decide : FWW_DL_VLAN_PCP &&& FWW_TP_DST = 0),
    (by decide : FWW_NW_TOS &&& FWW_TP_DST = 0),
    (by decide : FWW_TUN_ID &&& FWW_TP_DST = 0),
    (by decide : FWW_ETH_MCAST &&& FWW_TP_DST = 0)]
  simp

theorem fromMatchWCW_WCI (w : Nat) :
    fromMatchWCW w &&& WC_INVARIANTS = w &&& WC_INVARIANTS := by
  rw [fromMatchWCW_and,
    (by decide : WC_INVARIANTS &&& WC_INVARIANTS = WC_INVARIANTS),
    (by decide : FWW_DL_VLAN_PCP &&& WC_INVARIANTS = 0),
    (by decide : FWW_NW_TOS &&& WC_INVARIANTS = 0),
    (by decide : FWW_TUN_ID &&& WC_INVARIANTS = 0),
    (by decide : FWW_ETH_MCAST &&& WC_INVARIANTS = 0)]
  simp

theorem fromMatchWCW_PCP (w : Nat) :
    fromMatchWCW w &&& FWW_DL_VLAN_PCP
      = if w &&& OFPFW_DL_VLAN_PCP ≠ 0 then FWW_DL_VLAN_PCP else 0 := by
  rw [fromMatchWCW_and,
    (by decide : WC_INVARIANTS &&& FWW_DL_VLAN_PCP = 0),
    (by decide : FWW_DL_VLAN_PCP &&& FWW_DL_VLAN_PCP = FWW_DL_VLAN_PCP),
    (by decide : FWW_NW_TOS &&& FWW_DL_VLAN_PCP = 0),
    (by decide : FWW_TUN_ID &&& FWW_DL_VLAN_PCP = 0),
    (by decide : FWW_ETH_MCAST &&& FWW_DL_VLAN_PCP = 0)]
  simp

theorem fromMatchWCW_TOS (w : Nat) :
    fromMatchWCW w &&& FWW_NW_TOS
      = if w &&& OFPFW_NW_TOS ≠ 0 then FWW_NW_TOS else 0 := by
  rw [fromMatchWCW_and,
    (by decide : WC_INVARIANTS &&& FWW_NW_TOS = 0),
    (by decide : FWW_DL_VLAN_PCP &&& FWW_NW_TOS = 0),
    (by decide : FWW_NW_TOS &&& FWW_NW_TOS = FWW_NW_TOS),
    (by decide : FWW_TUN_ID &&& FWW_NW_TOS = 0),
    (by decide : FWW_ETH_MCAST &&& FWW_NW_TOS = 0)]
  simp

theorem fromMatchWCW_TUN (w : Nat) :
    fromMatchWCW w &&& FWW_TUN_ID
      = if w &&& NXFW_TUN_ID = 0 then 0 else FWW_TUN_ID := by
  rw [fromMatchWCW_and,
    (by decide : WC_INVARIANTS &&& FWW_TUN_ID = 0),
    (by decide : FWW_DL_VLAN_PCP &&& FWW_TUN_ID = 0),
    (by decide : FWW_NW_TOS &&& FWW_TUN_ID = 0),
    (by decide : FWW_TUN_ID &&& FWW_TUN_ID = FWW_TUN_ID),
    (by decide : FWW_ETH_MCAST &&& FWW_TUN_ID = 0)]
  simp

theorem fromMatchWCW_MCAST (w : Nat) :
    fromMatchWCW w &&& FWW_ETH_MCAST
      = if w &&& OFPFW_DL_DST ≠ 0 then FWW_ETH_MCAST else 0 := by
  rw [fromMatchWCW_and,
    (by decide : WC_INVARIANTS &&& FWW_ETH_MCAST = 0),
    (by decide : FWW_DL_VLAN_PCP &&& FWW_ETH_MCAST = 0),
    (by decide : FWW_NW_TOS &&& FWW_ETH_MCAST = 0),
    (by decide : FWW_TUN_ID &&& FWW_ETH_MCAST = 0),
    (by decide : FWW_ETH_MCAST &&& FWW_ETH_MCAST = FWW_ETH_MCAST)]
  simp

theorem netmask_rt_le32 :
    ∀ k, k ≤ 32 →
      ofputil_netmask_to_wcbits (ofputil_wcbits_to_netmask k) = k := by
  decide

theorem netmask_rt_of_land (n : Nat) (h : n &&& 63 ≤ 32) :
    ofputil_netmask_to_wcbits (ofputil_wcbits_to_netmask n) = n &&& 63 := by
  rw [wcbits_to_netmask_congr n (n &&& 63) (land_idem n 63).symm]
  exact netmask_rt_le32 (n &&& 63) h

theorem ite_of_ite_ne (c : Prop) [Decidable c] (a : Nat) (ha : a ≠ 0)
    (x y : Nat) :
    (if (if c then a else 0) ≠ 0 then x else y) = if c then x else y := by
  by_cases h : c <;> simp [h, ha]

theorem ite_of_ite_ne0 (c : Prop) [Decidable c] (a : Nat) (ha : a ≠ 0)
    (x y : Nat) :
    (if (if c then 0 else a) ≠ 0 then x else y) = if c then y else x := by
  by_cases h : c <;> simp [h, ha]

theorem ite_land_two_pow0 (w k : Nat) :
    (if w &&& 2 ^ k = 0 then 0 else 2 ^ k) = w &&& 2 ^ k := by
  rw [land_two_pow_eq]
  cases hb : w.testBit k <;> simp [hb]

/-- C3 counterexample: the match with only the VLAN-id wildcard bit set,
VLAN id 5, ingress port 1 and dl_type ARP is normalized (normalize_match
fixes it) and has no wildcard bits outside the legal mask, yet the
conversion round-trip loses the VLAN id: the wildcarded field is zeroed by
the rule side, so the claim as stated is false. -/
theorem C3_counterexample :
    normalize_match
        { wildcards := OFPFW_DL_VLAN, in_port := 1, dl_src := 0, dl_dst := 0,
          dl_vlan := 5, dl_vlan_pcp := 0, pad1 := 0, dl_type := ETH_TYPE_ARP,
          nw_tos := 0, nw_proto := 0, pad2 := 0, nw_src := 0, nw_dst := 0,
          tp_src := 0, tp_dst := 0 } =
      { wildcards := OFPFW_DL_VLAN, in_port := 1, dl_src := 0, dl_dst := 0,
        dl_vlan := 5, dl_vlan_pcp := 0, pad1 := 0, dl_type := ETH_TYPE_ARP,
        nw_tos := 0, nw_proto := 0, pad2 := 0, nw_src := 0, nw_dst := 0,
        tp_src := 0, tp_dst := 0 } ∧
    ({ wildcards := OFPFW_DL_VLAN, in_port := 1, dl_src := 0, dl_dst := 0,
       dl_vlan := 5, dl_vlan_pcp := 0, pad1 := 0, dl_type := ETH_TYPE_ARP,
       nw_tos := 0, nw_proto := 0, pad2 := 0, nw_src := 0, nw_dst := 0,
       tp_src := 0, tp_dst := 0 : OfpMatch }.wildcards &&& OFPFW_ALL
      = OFPFW_DL_VLAN) ∧
    ofputil_cls_rule_to_match
        (ofputil_cls_rule_from_match
          { wildcards := OFPFW_DL_VLAN, in_port := 1, dl_src := 0, dl_dst := 0,
            dl_vlan := 5, dl_vlan_pcp := 0, pad1 := 0, dl_type := ETH_TYPE_ARP,
            nw_tos := 0, nw_proto := 0, pad2 := 0, nw_src := 0, nw_dst := 0,
            tp_src := 0, tp_dst := 0 } 100 FlowFormat.NXFF_OPENFLOW10 0)
        FlowFormat.NXFF_OPENFLOW10 ≠
      { wildcards := OFPFW_DL_VLAN, in_port := 1, dl_src := 0, dl_dst := 0,
        dl_vlan := 5, dl_vlan_pcp := 0, pad1 := 0, dl_type := ETH_TYPE_ARP,
        nw_tos := 0, nw_proto := 0, pad2 := 0, nw_src := 0, nw_dst := 0,
        tp_src := 0, tp_dst := 0 } := by
  refine ⟨by decide, by decide, by decide⟩

/-- C3 (amended): the conversion round-trip
rule_to_match (rule_from_match m p fmt cookie) fmt reproduces m under the
preconditions the code actually requires: no wildcard bits outside the
legal mask of the flow format, both netmask wildcard-bit counts at most 32,
every wildcarded fixed-size field zero in m, each L3 address contained in
its netmask, zero padding, and an ingress port that is the wire local-port
constant when wildcarded and nonzero when exact. -/
theorem C3_roundtrip (m : OfpMatch) (p cookie : Nat) (fmt : FlowFormat)
    (hleg : m.wildcards &&&
      (if fmt = FlowFormat.NXFF_TUN_ID_FROM_COOKIE then OVSFW_ALL
       else OFPFW_ALL) = m.wildcards)
    (hsrc : (m.wildcards >>> OFPFW_NW_SRC_SHIFT) &&& 0x3f ≤ 32)
    (hdst : (m.wildcards >>> OFPFW_NW_DST_SHIFT) &&& 0x3f ≤ 32)
    (hip1 : m.wildcards &&& OFPFW_IN_PORT ≠ 0 → m.in_port = OFPP_LOCAL)
    (hip2 : m.wildcards &&& OFPFW_IN_PORT = 0 → m.in_port ≠ ODPP_LOCAL)
    (hvlan : m.wildcards &&& OFPFW_DL_VLAN ≠ 0 → m.dl_vlan = 0)
    (hpcp : m.wildcards &&& OFPFW_DL_VLAN_PCP ≠ 0 → m.dl_vlan_pcp = 0)
    (hdls : m.wildcards &&& OFPFW_DL_SRC ≠ 0 → m.dl_src = 0)
    (hdld : m.wildcards &&& OFPFW_DL_DST ≠ 0 → m.dl_dst = 0)
    (hdlt : m.wildcards &&& OFPFW_DL_TYPE ≠ 0 → m.dl_type = 0)
    (hproto : m.wildcards &&& OFPFW_NW_PROTO ≠ 0 → m.nw_proto = 0)
    (htos : m.wildcards &&& OFPFW_NW_TOS ≠ 0 → m.nw_tos = 0)
    (htps : m.wildcards &&& OFPFW_TP_SRC ≠ 0 → m.tp_src = 0)
    (htpd : m.wildcards &&& OFPFW_TP_DST ≠ 0 → m.tp_dst = 0)
    (hnsrc : m.nw_src &&&
      ofputil_wcbits_to_netmask (m.wildcards >>> OFPFW_NW_SRC_SHIFT)
        = m.nw_src)
    (hndst : m.nw_dst &&&
      ofputil_wcbits_to_netmask (m.wildcards >>> OFPFW_NW_DST_SHIFT)
        = m.nw_dst)
    (hpad1 : m.pad1 = 0) (hpad2 : m.pad2 = 0) :
    ofputil_cls_rule_to_match (ofputil_cls_rule_from_match m p fmt cookie) fmt
      = m := by
  obtain ⟨w, ip, dls, dld, dlv, pcp, p1, dlt, tos, proto, p2, ns, nd, ts, td⟩ := m
  dsimp only at *
  subst hpad1
  subst hpad2
  have hrt_s : ofputil_netmask_to_wcbits
      (ofputil_wcbits_to_netmask (w >>> OFPFW_NW_SRC_SHIFT))
        = (w >>> OFPFW_NW_SRC_SHIFT) &&& 63 := netmask_rt_of_land _ hsrc
  have hrt_d : ofputil_netmask_to_wcbits
      (ofputil_wcbits_to_netmask (w >>> OFPFW_NW_DST_SHIFT))
        = (w >>> OFPFW_NW_DST_SHIFT) &&& 63 := netmask_rt_of_land _ hdst
  cases fmt
  case NXFF_OPENFLOW10 =>
    rw [if_neg (by decide)] at hleg
    simp only [ofputil_cls_rule_from_match, cls_rule_zero_wildcarded_fields,
      ofputil_cls_rule_to_match,
      eq_false (show ¬ (FlowFormat.NXFF_OPENFLOW10
        = FlowFormat.NXFF_TUN_ID_FROM_COOKIE) by decide),
      if_false, false_and, hleg, hrt_s, hrt_d, shift_extract,
      fromMatchWCW_IN_PORT, fromMatchWCW_DL_VLAN, fromMatchWCW_DL_SRC,
      fromMatchWCW_DL_DST, fromMatchWCW_DL_TYPE, fromMatchWCW_NW_PROTO,
      fromMatchWCW_TP_SRC, fromMatchWCW_TP_DST, fromMatchWCW_WCI,
      fromMatchWCW_PCP, fromMatchWCW_TOS, fromMatchWCW_TUN,
      fromMatchWCW_MCAST, hnsrc, hndst, OfpMatch.mk.injEq]
    refine ⟨?_, ?_, ?_, ?_, ?_, ?_, trivial, ?_, ?_, ?_, trivial, trivial,
      trivial, ?_, ?_⟩
    · -- wildcards round-trip
      rw [ite_of_ite_ne _ _ (by decide),
        ite_of_ite_ne _ _ (by decide),
        (by decide : OFPFW_DL_VLAN_PCP = 2 ^ 20),
        (by decide : OFPFW_NW_TOS = 2 ^ 21),
        ite_land_two_pow, ite_land_two_pow,
        (by decide : (63 : Nat) <<< OFPFW_NW_SRC_SHIFT = 0x3f00),
        (by decide : (63 : Nat) <<< OFPFW_NW_DST_SHIFT = 0xfc000),
        Nat.or_zero,
        ← Nat.and_or_distrib_left, ← Nat.and_or_distrib_left,
        ← Nat.and_or_distrib_left, ← Nat.and_or_distrib_left,
        (by decide : WC_INVARIANTS ||| 0x3f00 ||| 0xfc000 ||| 2 ^ 20 |||
          2 ^ 21 = OFPFW_ALL)]
      exact hleg
    · -- in_port
      by_cases hwip : w &&& OFPFW_IN_PORT ≠ 0
      · simp [hwip, hip1 hwip, ODPP_LOCAL]
      · push_neg at hwip
        by_cases hl : ip = OFPP_LOCAL
        · simp [hwip, hl, ODPP_LOCAL, OFPP_LOCAL]
        · simp [hwip, hl, hip2 hwip]
    · -- dl_src
      by_cases hb : w &&& OFPFW_DL_SRC ≠ 0
      · rw [if_pos hb, hdls hb]
      · rw [if_neg hb]
    · -- dl_dst
      by_cases hb : w &&& OFPFW_DL_DST ≠ 0
      · rw [if_pos hb]
        exact (hdld hb).symm
      · rw [if_neg hb]
        simp [hb]
    · -- dl_vlan
      by_cases hb : w &&& OFPFW_DL_VLAN ≠ 0
      · rw [if_pos hb, hvlan hb]
      · rw [if_neg hb]
    · -- dl_vlan_pcp
      rw [ite_of_ite_ne _ _ (by decide)]
      by_cases hb : w &&& OFPFW_DL_VLAN_PCP ≠ 0
      · rw [if_pos hb, hpcp hb]
      · rw [if_neg hb]
    · -- dl_type
      by_cases hb : w &&& OFPFW_DL_TYPE ≠ 0
      · rw [if_pos hb, hdlt hb]
      · rw [if_neg hb]
    · -- nw_tos
      rw [ite_of_ite_ne _ _ (by decide)]
      by_cases hb : w &&& OFPFW_NW_TOS ≠ 0
      · rw [if_pos hb, htos hb]
      · rw [if_neg hb]
    · -- nw_proto
      by_cases hb : w &&& OFPFW_NW_PROTO ≠ 0
      · rw [if_pos hb, hproto hb]
      · rw [if_neg hb]
    · -- tp_src
      by_cases hb : w &&& OFPFW_TP_SRC ≠ 0
      · rw [if_pos hb, htps hb]
      · rw [if_neg hb]
    · -- tp_dst
      by_cases hb : w &&& OFPFW_TP_DST ≠ 0
      · rw [if_pos hb, htpd hb]
      · rw [if_neg hb]
  case NXFF_TUN_ID_FROM_COOKIE =>
    rw [if_pos rfl] at hleg
    simp only [ofputil_cls_rule_from_match, cls_rule_zero_wildcarded_fields,
      ofputil_cls_rule_to_match, eq_self_iff_true, if_true, true_and,
      hleg, hrt_s, hrt_d, shift_extract,
      fromMatchWCW_IN_PORT, fromMatchWCW_DL_VLAN, fromMatchWCW_DL_SRC,
      fromMatchWCW_DL_DST, fromMatchWCW_DL_TYPE, fromMatchWCW_NW_PROTO,
      fromMatchWCW_TP_SRC, fromMatchWCW_TP_DST, fromMatchWCW_WCI,
      fromMatchWCW_PCP, fromMatchWCW_TOS, fromMatchWCW_TUN,
      fromMatchWCW_MCAST, hnsrc, hndst, OfpMatch.mk.injEq]
    refine ⟨?_, ?_, ?_, ?_, ?_, ?_, ?_, ?_, ?_, ?_, ?_⟩
    · -- wildcards round-trip, with the tunnel-id bit
      rw [ite_of_ite_ne _ _ (by decide),
        ite_of_ite_ne _ _ (by decide),
        ite_of_ite_ne0 _ _ (by decide),
        (by decide : OFPFW_DL_VLAN_PCP = 2 ^ 20),
        (by decide : OFPFW_NW_TOS = 2 ^ 21),
        (by decide : NXFW_TUN_ID = 2 ^ 25),
        ite_land_two_pow, ite_land_two_pow, ite_land_two_pow0,
        (by decide : (63 : Nat) <<< OFPFW_NW_SRC_SHIFT = 0x3f00),
        (by decide : (63 : Nat) <<< OFPFW_NW_DST_SHIFT = 0xfc000),
        ← Nat.and_or_distrib_left, ← Nat.and_or_distrib_left,
        ← Nat.and_or_distrib_left, ← Nat.and_or_distrib_left,
        ← Nat.and_or_distrib_left,
        (by decide : WC_INVARIANTS ||| 0x3f00 ||| 0xfc000 ||| 2 ^ 20 |||
          2 ^ 21 ||| 2 ^ 25 = OVSFW_ALL)]
      exact hleg
    · -- in_port
      by_cases hwip : w &&& OFPFW_IN_PORT ≠ 0
      · simp [hwip, hip1 hwip, ODPP_LOCAL]
      · push_neg at hwip
        by_cases hl : ip = OFPP_LOCAL
        · simp [hwip, hl, ODPP_LOCAL, OFPP_LOCAL]
        · simp [hwip, hl, hip2 hwip]
    · -- dl_src
      by_cases hb : w &&& OFPFW_DL_SRC ≠ 0
      · rw [if_pos hb, hdls hb]
      · rw [if_neg hb]
    · -- dl_dst
      by_cases hb : w &&& OFPFW_DL_DST ≠ 0
      · rw [if_pos hb]
        exact (hdld hb).symm
      · rw [if_neg hb]
        simp [hb]
    · -- dl_vlan
      by_cases hb : w &&& OFPFW_DL_VLAN ≠ 0
      · rw [if_pos hb, hvlan hb]
      · rw [if_neg hb]
    · -- dl_vlan_pcp
      rw [ite_of_ite_ne _ _ (by decide)]
      by_cases hb : w &&& OFPFW_DL_VLAN_PCP ≠ 0
      · rw [if_pos hb, hpcp hb]
      · rw [if_neg hb]
    · -- dl_type
      by_cases hb : w &&& OFPFW_DL_TYPE ≠ 0
      · rw [if_pos hb, hdlt hb]
      · rw [if_neg hb]
    · -- nw_tos
      rw [ite_of_ite_ne _ _ (by decide)]
      by_cases hb : w &&& OFPFW_NW_TOS ≠ 0
      · rw [if_pos hb, htos hb]
      · rw [if_neg hb]
    · -- nw_proto
      by_cases hb : w &&& OFPFW_NW_PROTO ≠ 0
      · rw [if_pos hb, hproto hb]
      · rw [if_neg hb]
    · -- tp_src
      by_cases hb : w &&& OFPFW_TP_SRC ≠ 0
      · rw [if_pos hb, htps hb]
      · rw [if_neg hb]
    · -- tp_dst
      by_cases hb : w &&& OFPFW_TP_DST ≠ 0
      · rw [if_pos hb, htpd hb]
      · rw [if_neg hb]

/-- Witness for C3 at a concrete normalized match (wildcarded VLAN id held
at zero, ARP dl_type, ingress port 1), requested priority 100, cookie 7. -/
theorem C3_roundtrip_witness :
    ofputil_cls_rule_to_match
        (ofputil_cls_rule_from_match
          { wildcards := OFPFW_DL_VLAN, in_port := 1, dl_src := 0, dl_dst := 0,
            dl_vlan := 0, dl_vlan_pcp := 0, pad1 := 0, dl_type := ETH_TYPE_ARP,
            nw_tos := 0, nw_proto := 0, pad2 := 0, nw_src := 0, nw_dst := 0,
            tp_src := 0, tp_dst := 0 } 100 FlowFormat.NXFF_OPENFLOW10 7)
        FlowFormat.NXFF_OPENFLOW10 =
      { wildcards := OFPFW_DL_VLAN, in_port := 1, dl_src := 0, dl_dst := 0,
        dl_vlan := 0, dl_vlan_pcp := 0, pad1 := 0, dl_type := ETH_TYPE_ARP,
        nw_tos := 0, nw_proto := 0, pad2 := 0, nw_src := 0, nw_dst := 0,
        tp_src := 0, tp_dst := 0 } :=
  C3_roundtrip _ 100 7 FlowFormat.NXFF_OPENFLOW10 (by decide) (by decide)
    (by decide) (by decide) (by decide) (by decide) (by decide) (by decide)
    (by decide) (by decide) (by decide) (by decide) (by decide) (by decide)
    (by decide) (by decide) (by decide) (by decide)

/-- Witness for C1: an exact match gets priority 65535 whatever was
requested, and an all-wildcard match keeps the requested priority 7. -/
theorem C1_priority_witness :
    (ofputil_cls_rule_from_match
      { wildcards := 0, in_port := 1, dl_src := 0, dl_dst := 0, dl_vlan := 0,
        dl_vlan_pcp := 0, pad1 := 0, dl_type := 0, nw_tos := 0, nw_proto := 0,
        pad2 := 0, nw_src := 0, nw_dst := 0, tp_src := 0,
        tp_dst := 0 } 5 FlowFormat.NXFF_OPENFLOW10 0).priority = 0xffff ∧
    (ofputil_cls_rule_from_match
      { wildcards := MASK32, in_port := 0, dl_src := 0, dl_dst := 0,
        dl_vlan := 0, dl_vlan_pcp := 0, pad1 := 0, dl_type := 0, nw_tos := 0,
        nw_proto := 0, pad2 := 0, nw_src := 0, nw_dst := 0, tp_src := 0,
        tp_dst := 0 } 7 FlowFormat.NXFF_OPENFLOW10 0).priority = 7 :=
  ⟨(C1_priority _ 5 FlowFormat.NXFF_OPENFLOW10 0).1 (by decide),
   (C1_priority _ 7 FlowFormat.NXFF_OPENFLOW10 0).2 (by decide)⟩

/-- C6: the TLV walk fails with the bad-length descriptor as soon as it
reaches an action whose declared length over the 8-byte alignment exceeds
the remaining slots, is zero, or is not a multiple of the alignment; and on
a 24-byte run (3 slots) whose first action declares length 32, it fails
with bad-length whatever the later bytes, the checkers, the flow and the
port limit are. -/
theorem C6_validate_actions_bad_len :
    (∀ (ck : NxRegCheck) (bytes : List Nat) (n : Nat) (flow : OfpFlow)
        (mp i : Nat), i < n →
      (be16 bytes (8 * i + 2) / OFP_ACTION_ALIGN > n - i ∨
       be16 bytes (8 * i + 2) = 0 ∨
       be16 bytes (8 * i + 2) % OFP_ACTION_ALIGN ≠ 0) →
      validate_actions_from ck bytes n flow mp i
        = ofp_mkerr OFPET_BAD_ACTION OFPBAC_BAD_LEN) ∧
    (∀ (ck : NxRegCheck) (flow : OfpFlow) (mp : Nat) (rest : List Nat),
      validate_actions ck ([0, 0, 0, 32, 0, 0, 0, 0] ++ rest) 3 flow mp
        = ofp_mkerr OFPET_BAD_ACTION OFPBAC_BAD_LEN) := by
  have hgen : ∀ (ck : NxRegCheck) (bytes : List Nat) (n : Nat) (flow : OfpFlow)
      (mp i : Nat), i < n →
      (be16 bytes (8 * i + 2) / OFP_ACTION_ALIGN > n - i ∨
       be16 bytes (8 * i + 2) = 0 ∨
       be16 bytes (8 * i + 2) % OFP_ACTION_ALIGN ≠ 0) →
      validate_actions_from ck bytes n flow mp i
        = ofp_mkerr OFPET_BAD_ACTION OFPBAC_BAD_LEN := by
    intro ck bytes n flow mp i hi hbad
    rw [validate_actions_from]
    rw [dif_pos hi]
    split_ifs with hA hB hC
    · rfl
    · rfl
    · rfl
    · exact absurd hbad (by push_neg; exact ⟨by omega, hB, by simpa using hC⟩)
  refine ⟨hgen, ?_⟩
  intro ck flow mp rest
  rw [validate_actions]
  refine hgen ck _ 3 flow mp 0 (by decide) (Or.inl ?_)
  have hbe : be16 ([0, 0, 0, 32, 0, 0, 0, 0] ++ rest) (8 * 0 + 2) = 32 := by
    simp [be16]
  rw [hbe]
  decide

/-- Witness for C6 at fully concrete inputs. -/
theorem C6_validate_actions_bad_len_witness :
    validate_actions_from nullRegCheck [0, 0, 0, 9] 1 zeroFlow 4 0
        = ofp_mkerr OFPET_BAD_ACTION OFPBAC_BAD_LEN ∧
    validate_actions nullRegCheck
        ([0, 0, 0, 32, 0, 0, 0, 0] ++ List.replicate 16 0) 3 zeroFlow 4
        = ofp_mkerr OFPET_BAD_ACTION OFPBAC_BAD_LEN :=
  ⟨C6_validate_actions_bad_len.1 nullRegCheck [0, 0, 0, 9] 1 zeroFlow 4 0
      (by decide) (by decide),
   C6_validate_actions_bad_len.2 nullRegCheck zeroFlow 4 (List.replicate 16 0)⟩

/-- C7: the output-port check accepts exactly the reserved virtual ports
and the numeric ports strictly below max_ports, failing with the
bad-output-port descriptor otherwise; an 8-byte output action to reserved
port 0xfff8 validates, the same action with declared length 12 fails with
bad-length, and an output action to port 5 with max_ports 4 fails with
bad-output-port. -/
theorem C7_check_output_port :
    (∀ port mp : Nat,
      (check_output_port port mp = 0 ↔
        ((port = OFPP_IN_PORT ∨ port = OFPP_TABLE ∨ port = OFPP_NORMAL ∨
          port = OFPP_FLOOD ∨ port = OFPP_ALL ∨ port = OFPP_CONTROLLER ∨
          port = OFPP_LOCAL) ∨ port < mp)) ∧
      (check_output_port port mp ≠ 0 →
        check_output_port port mp
          = ofp_mkerr OFPET_BAD_ACTION OFPBAC_BAD_OUT_PORT)) ∧
    (∀ (ck : NxRegCheck) (flow : OfpFlow),
      validate_actions ck [0, 0, 0, 8, 0xff, 0xf8, 0, 0] 1 flow 1 = 0) ∧
    (∀ (ck : NxRegCheck) (flow : OfpFlow) (mp : Nat),
      validate_actions ck ([0, 0, 0, 12, 0xff, 0xf8, 0, 0]
          ++ List.replicate 8 0) 2 flow mp
        = ofp_mkerr OFPET_BAD_ACTION OFPBAC_BAD_LEN) ∧
    (∀ (ck : NxRegCheck) (flow : OfpFlow),
      validate_actions ck [0, 0, 0, 8, 0, 5, 0, 0] 1 flow 4
        = ofp_mkerr OFPET_BAD_ACTION OFPBAC_BAD_OUT_PORT) := by
  refine ⟨?_, ?_, ?_, ?_⟩
  · intro port mp
    constructor
    · unfold check_output_port
      split_ifs with h1 h2
      · simp [h1]
      · simp [h2]
      · constructor
        · intro h
          exact absurd h (by decide)
        · intro h
          rcases h with h | h
          · exact absurd h h1
          · exact absurd h h2
    · intro hne
      unfold check_output_port at *
      split_ifs at * with h1 h2
      · exact absurd rfl hne
      · exact absurd rfl hne
      · rfl
  · intro ck flow
    rw [validate_actions, validate_actions_from]
    norm_num [be16, OFP_ACTION_ALIGN, check_action, check_action_exact_len,
      check_output_port, OFPAT_OUTPUT, OFPP_IN_PORT, OFPP_TABLE, OFPP_NORMAL,
      OFPP_FLOOD, OFPP_ALL, OFPP_CONTROLLER, OFPP_LOCAL]
    rw [validate_actions_from]
    norm_num
  · intro ck flow mp
    rw [validate_actions, validate_actions_from]
    norm_num [be16, OFP_ACTION_ALIGN]
  · intro ck flow
    rw [validate_actions, validate_actions_from]
    norm_num [be16, OFP_ACTION_ALIGN, check_action, check_action_exact_len,
      check_output_port, OFPAT_OUTPUT, OFPP_IN_PORT, OFPP_TABLE, OFPP_NORMAL,
      OFPP_FLOOD, OFPP_ALL, OFPP_CONTROLLER, OFPP_LOCAL]
    intro h
    exact absurd h (by decide)

/-- Witness for C7 at concrete inputs. -/
theorem C7_check_output_port_witness :
    check_output_port 0xfff8 0 = 0 ∧
    check_output_port 5 4 = ofp_mkerr OFPET_BAD_ACTION OFPBAC_BAD_OUT_PORT ∧
    validate_actions nullRegCheck [0, 0, 0, 8, 0xff, 0xf8, 0, 0] 1 zeroFlow 1
      = 0 :=
  ⟨(C7_check_output_port.1 0xfff8 0).1.mpr (Or.inl (Or.inl rfl)),
   (C7_check_output_port.1 5 4).2 (by decide),
   C7_check_output_port.2.1 nullRegCheck zeroFlow⟩

/-- C8: flow_stats_next returns none exactly when fewer bytes remain than
the minimum record size, or the declared record length is below that
minimum, exceeds the remaining bytes, or has a ragged excess over the
minimum that is not a whole number of 8-byte action slots; otherwise it
returns the current record and advances the cursor by the declared length.
A body holding exactly one full record yields that record and then none. -/
theorem C8_flow_stats_next :
    (∀ bytes : List Nat,
      (flow_stats_next bytes = none ↔
        (bytes.length < OFP_FLOW_STATS_SIZE ∨
         be16 bytes 0 < OFP_FLOW_STATS_SIZE ∨
         be16 bytes 0 > bytes.length ∨
         (be16 bytes 0 - OFP_FLOW_STATS_SIZE) % OFP_ACTION_HEADER_SIZE ≠ 0))) ∧
    (∀ bytes : List Nat,
      ¬ (bytes.length < OFP_FLOW_STATS_SIZE ∨
         be16 bytes 0 < OFP_FLOW_STATS_SIZE ∨
         be16 bytes 0 > bytes.length ∨
         (be16 bytes 0 - OFP_FLOW_STATS_SIZE) % OFP_ACTION_HEADER_SIZE ≠ 0) →
      flow_stats_next bytes
        = some (bytes.take (be16 bytes 0), bytes.drop (be16 bytes 0))) ∧
    (flow_stats_first (0 :: 88 :: List.replicate 86 1)
        = some (0 :: 88 :: List.replicate 86 1, []) ∧
      flow_stats_next ([] : List Nat) = none) := by
  refine ⟨?_, ?_, by decide, by decide⟩
  · intro bytes
    simp only [flow_stats_next]
    split_ifs with h1 h2 h3 h4
    · simp [h1]
    · simp [h1, h2]
    · simp [h1, h2, h3]
    · simp [h1, h2, h3, h4]
    · simp [h1, h2, h3, h4]
  · intro bytes hn
    push_neg at hn
    obtain ⟨n1, n2, n3, n4⟩ := hn
    simp only [flow_stats_next]
    rw [if_neg (by omega), if_neg (by omega), if_neg (by omega),
      if_neg (by simpa using n4)]

/-- Witness for C8 at a concrete body of exactly one record. -/
theorem C8_flow_stats_next_witness :
    flow_stats_next (0 :: 88 :: List.replicate 86 1)
      = some ((0 :: 88 :: List.replicate 86 1).take
            (be16 (0 :: 88 :: List.replicate 86 1) 0),
          (0 :: 88 :: List.replicate 86 1).drop
            (be16 (0 :: 88 :: List.replicate 86 1) 0)) :=
  C8_flow_stats_next.2.1 (0 :: 88 :: List.replicate 86 1) (by decide)

/-- C9: make_ofp_error_msg rejects any value that is not a well-formed
error descriptor; every message it builds from an original header echoes
exactly the first min(64, declared header length) bytes of that header and
reuses the header's transaction id; without a header the message carries
transaction id 0 and an empty echo; and a well-formed core-protocol
descriptor always builds successfully. -/
theorem C9_make_ofp_error_msg :
    (∀ (e : Nat) (oh : Option (List Nat)),
      is_ofp_error e = false → make_ofp_error_msg e oh = none) ∧
    (∀ (e : Nat) (msg : List Nat) (buf : OfpErrorBuf),
      make_ofp_error_msg e (some msg) = some buf →
      buf.xid = be32 msg 4 ∧ buf.echo = msg.take (min (be16 msg 2) 64)) ∧
    (∀ (e : Nat) (buf : OfpErrorBuf),
      make_ofp_error_msg e none = some buf →
      buf.xid = 0 ∧ buf.echo = []) ∧
    (∀ (e : Nat) (msg : List Nat),
      is_ofp_error e = true →
      get_ofp_err_vendor e = OFPUTIL_VENDOR_OPENFLOW →
      make_ofp_error_msg e (some msg)
        = some { xid := be32 msg 4, err_type := get_ofp_err_type e,
                 err_code := get_ofp_err_code e, vendor_ext := none,
                 echo := msg.take (min (be16 msg 2) 64),
                 total_len := min (be16 msg 2) 64 + 12 }) := by
  refine ⟨?_, ?_, ?_, ?_⟩
  · intro e oh he
    simp [make_ofp_error_msg, he]
  · intro e msg buf hbuf
    simp only [make_ofp_error_msg] at hbuf
    split_ifs at hbuf with h1 h2 h3
    all_goals
      first
        | (rw [Option.some_inj] at hbuf
           subst hbuf
           exact ⟨rfl, rfl⟩)
        | exact absurd hbuf (by simp)
  · intro e buf hbuf
    simp only [make_ofp_error_msg] at hbuf
    split_ifs at hbuf with h1 h2 h3
    all_goals
      first
        | (rw [Option.some_inj] at hbuf
           subst hbuf
           exact ⟨rfl, rfl⟩)
        | exact absurd hbuf (by simp)
  · intro e msg he hv
    simp [make_ofp_error_msg, he, hv]

/-- Witness for C9: errno-like value 5 is rejected, and a concrete
100-byte original message (declared length 100, xid 42) is echoed
truncated to 64 bytes with its xid reused. -/
theorem C9_make_ofp_error_msg_witness :
    make_ofp_error_msg 5 none = none ∧
    make_ofp_error_msg (ofp_mkerr OFPET_BAD_REQUEST OFPBRC_BAD_LEN)
        (some ([0, 0, 0, 100, 0, 0, 0, 42] ++ List.replicate 92 9))
      = some { xid := be32 ([0, 0, 0, 100, 0, 0, 0, 42]
                 ++ List.replicate 92 9) 4,
               err_type := get_ofp_err_type
                 (ofp_mkerr OFPET_BAD_REQUEST OFPBRC_BAD_LEN),
               err_code := get_ofp_err_code
                 (ofp_mkerr OFPET_BAD_REQUEST OFPBRC_BAD_LEN),
               vendor_ext := none,
               echo := ([0, 0, 0, 100, 0, 0, 0, 42]
                 ++ List.replicate 92 9).take
                   (min (be16 ([0, 0, 0, 100, 0, 0, 0, 42]
                     ++ List.replicate 92 9) 2) 64),
               total_len := min (be16 ([0, 0, 0, 100, 0, 0, 0, 42]
                 ++ List.replicate 92 9) 2) 64 + 12 } :=
  ⟨C9_make_ofp_error_msg.1 5 none (by decide),
   C9_make_ofp_error_msg.2.2.2 _ _ (by decide) (by decide)⟩

/-- C10: every message built by make_flow_mod and its wrappers
(make_add_flow, make_del_flow, make_add_simple_flow), make_packet_in,
make_packet_out and its two wrappers, and make_echo_request carries
transaction id 0 and leaves the process-wide transaction-id counter
untouched; the counter is consumed (returning the current value as the
id and incrementing the state) exactly by make_openflow, make_nxmsg and
put_openflow. -/
theorem C10_builders_xid_zero :
    (∀ (cmd : Nat) (rule : ClsRule) (alen s : Nat),
      (make_flow_mod cmd rule alen s).1.header.xid = 0 ∧
      (make_flow_mod cmd rule alen s).2 = s) ∧
    (∀ (rule : ClsRule) (bid ito alen s : Nat),
      (make_add_flow rule bid ito alen s).1.header.xid = 0 ∧
      (make_add_flow rule bid ito alen s).2 = s) ∧
    (∀ (rule : ClsRule) (s : Nat),
      (make_del_flow rule s).1.header.xid = 0 ∧
      (make_del_flow rule s).2 = s) ∧
    (∀ (rule : ClsRule) (bid oport ito s : Nat),
      (make_add_simple_flow rule bid oport ito s).1.1.header.xid = 0 ∧
      (make_add_simple_flow rule bid oport ito s).2 = s) ∧
    (∀ (bid iport reason : Nat) (payload : List Nat) (msl s : Nat),
      (make_packet_in bid iport reason payload msl s).1.header.xid = 0 ∧
      (make_packet_in bid iport reason payload msl s).2 = s) ∧
    (∀ (packet : Option (List Nat)) (bid iport : Nat)
        (acts : List OfpActionOutput) (s : Nat),
      (make_packet_out packet bid iport acts s).1.header.xid = 0 ∧
      (make_packet_out packet bid iport acts s).2 = s) ∧
    (∀ (packet : List Nat) (iport oport s : Nat),
      (make_unbuffered_packet_out packet iport oport s).1.header.xid = 0 ∧
      (make_unbuffered_packet_out packet iport oport s).2 = s) ∧
    (∀ (bid iport oport s : Nat),
      (make_buffered_packet_out bid iport oport s).1.header.xid = 0 ∧
      (make_buffered_packet_out bid iport oport s).2 = s) ∧
    (∀ s : Nat,
      (make_echo_request s).1.xid = 0 ∧ (make_echo_request s).2 = s) ∧
    (∀ (len typ s : Nat),
      (make_openflow len typ s).1.xid = s ∧ (make_openflow len typ s).2
        = s + 1) ∧
    (∀ (len sub s : Nat),
      (make_nxmsg len sub s).1.header.xid = s ∧ (make_nxmsg len sub s).2
        = s + 1) ∧
    (∀ (len typ s : Nat),
      (put_openflow len typ s).1.xid = s ∧ (put_openflow len typ s).2
        = s + 1) := by
  refine ⟨fun cmd rule alen s => ⟨rfl, rfl⟩,
    fun rule bid ito alen s => ⟨rfl, rfl⟩,
    fun rule s => ⟨rfl, rfl⟩,
    fun rule bid oport ito s => ?_,
    fun bid iport reason payload msl s => ⟨rfl, rfl⟩,
    fun packet bid iport acts s => ⟨rfl, rfl⟩,
    fun packet iport oport s => ⟨rfl, rfl⟩,
    fun bid iport oport s => ?_,
    fun s => ⟨rfl, rfl⟩,
    fun len typ s => ⟨rfl, rfl⟩,
    fun len sub s => ⟨rfl, rfl⟩,
    fun len typ s => ⟨rfl, rfl⟩⟩
  · unfold make_add_simple_flow
    split_ifs <;> exact ⟨rfl, rfl⟩
  · unfold make_buffered_packet_out
    split_ifs <;> exact ⟨rfl, rfl⟩
